import Mathlib

/-!
Verification of the vintasend notification core against its specification.

The definitions below are a shallow embedding of the Python sources:
  * `constants.py`            — status / type enums,
  * `dataclasses.py`          — `Notification`, `NotificationContextDict.__setitem__`,
  * `notification_backends/stubs/fake_backend.py` — `FakeFileBackend`,
  * `notification_service.py` — `NotificationService` (synchronous variant).

Modelling conventions:
  * Python `datetime` values are integers (UTC timestamps); `datetime.now()`
    becomes an explicit `now : Int` parameter threaded where the source calls it.
  * Python exceptions become `Except` / explicit outcome values; the exception
    class hierarchy relevant to control flow is reproduced as `PyExc`
    (with `__cause__` chains as constructor payloads).
  * `uuid.uuid4()` in `FakeFileBackend.persist_notification` is modelled as a
    fresh identifier drawn from a counter in the backend state.
  * Adapter `send` behaviour is abstracted by a boolean `sendOk` field
    (whether the call raises); the orchestration logic never inspects
    anything else about the call.
-/

namespace VintaSend

/-- Model of `NotificationStatus` enum from `constants.py`. -/
inductive NotificationStatus where
  | pendingSend
  | sent
  | failed
  | read
  | cancelled
deriving DecidableEq, Repr

/-- Model of `.value` of the `NotificationStatus` enum members. -/
def NotificationStatus.value : NotificationStatus → String
  | .pendingSend => "PENDING_SEND"
  | .sent => "SENT"
  | .failed => "FAILED"
  | .read => "READ"
  | .cancelled => "CANCELLED"

/-- Model of `NotificationTypes` enum from `constants.py`. -/
inductive NotificationTypes where
  | push
  | email
  | sms
  | inApp
deriving DecidableEq, Repr

/-- Model of `.value` of the `NotificationTypes` enum members. -/
def NotificationTypes.value : NotificationTypes → String
  | .push => "PUSH"
  | .email => "EMAIL"
  | .sms => "SMS"
  | .inApp => "IN_APP"

/-- A Python identifier value: `int | str | uuid.UUID`, as used for
notification and user ids throughout the source. -/
inductive PId where
  | pInt (n : Int)
  | pStr (s : String)
  | pUuid (u : String)
deriving DecidableEq, Repr

/-- Python `str(...)` applied to an identifier value; a `uuid.UUID` renders as
its canonical hex-and-dashes form, which the model stores directly. -/
def PId.str : PId → String
  | .pInt n => toString n
  | .pStr s => s
  | .pUuid u => u

/-- The materialized notification context (a JSON-safe mapping); its internal
structure is irrelevant to the orchestration logic, which only passes it
around, so it is modelled as an association list of strings. -/
abbrev Ctx := List (String × String)

/-- The `Notification` dataclass from `dataclasses.py`.  The `OneOffNotification`
dataclass shares every field used by the backend logic and is distinguished
only by carrying contact data instead of `user_id`; the two are merged here
with an `isOneOff` discriminator (mirroring the `isinstance` checks of the
source). -/
structure Notification where
  id : PId
  user_id : PId
  notification_type : String
  title : String
  body_template : String
  context_name : String
  context_kwargs : Ctx
  send_after : Option Int
  subject_template : String
  preheader_template : String
  status : String
  context_used : Option Ctx
  adapter_used : Option String
  isOneOff : Bool
  email_or_phone : String
  first_name : String
  last_name : String
deriving DecidableEq, Repr

/-- Errors raised by `FakeFileBackend` operations:
`NotificationUpdateError` and `NotificationNotFoundError`. -/
inductive BackendErr where
  | updateError
  | notFoundError
deriving DecidableEq, Repr

/-- Model of `UpdateNotificationKwargs` from `dataclasses.py`: the optional fields of a
`persist_notification_update` patch (`total=False` in the source: absent keys
are represented by `Option.none`). -/
structure UpdatePatch where
  title : Option String
  body_template : Option String
  context_name : Option String
  context_kwargs : Option Ctx
  send_after : Option (Option Int)
  subject_template : Option String
  preheader_template : Option String
deriving DecidableEq, Repr

/-- The empty patch (no keys supplied). -/
def UpdatePatch.empty : UpdatePatch :=
  ⟨Option.none, Option.none, Option.none, Option.none, Option.none, Option.none, Option.none⟩

/-- The `setattr` loop of `FakeFileBackend.persist_notification_update`:
every supplied key overwrites the corresponding attribute. -/
def applyPatch (p : UpdatePatch) (n : Notification) : Notification :=
  { n with
    title := p.title.getD n.title
    body_template := p.body_template.getD n.body_template
    context_name := p.context_name.getD n.context_name
    context_kwargs := p.context_kwargs.getD n.context_kwargs
    send_after := p.send_after.getD n.send_after
    subject_template := p.subject_template.getD n.subject_template
    preheader_template := p.preheader_template.getD n.preheader_template }

/-- Model of `next(n for n in self.notifications if str(n.id) == str(notification_id))`:
the first stored notification whose stringified id equals the stringified
requested id. -/
def findNotification (ns : List Notification) (nid : PId) : Option Notification :=
  ns.find? (fun n => n.id.str == nid.str)

/-- Model of `FakeFileBackend.get_notification`: raises `NotificationNotFoundError`
when no stored notification matches. -/
def fakeGetNotification (ns : List Notification) (nid : PId) :
    Except BackendErr Notification :=
  match findNotification ns nid with
  | some n => .ok n
  | Option.none => .error .notFoundError

/-- In-place mutation of the first notification matching the id (the Python
code mutates the object returned by `get_notification`, which lives in the
`self.notifications` list). -/
def updateFirstById (ns : List Notification) (nid : PId)
    (f : Notification → Notification) : List Notification :=
  match ns with
  | [] => []
  | n :: rest =>
    if n.id.str == nid.str then f n :: rest
    else n :: updateFirstById rest nid f

/-- Model of `FakeFileBackend.persist_notification_update`: look the notification up
(raising not-found on a miss), apply the `setattr` patch, store.  The current
status is never examined. -/
def fakePersistNotificationUpdate (ns : List Notification) (nid : PId)
    (p : UpdatePatch) : Except BackendErr (List Notification × Notification) :=
  match findNotification ns nid with
  | Option.none => .error .notFoundError
  | some n => .ok (updateFirstById ns nid (applyPatch p), applyPatch p n)

/-- Common shape of the three `mark_*` operations of `FakeFileBackend`:
set the status field unconditionally. -/
def fakeSetStatus (ns : List Notification) (nid : PId) (st : String) :
    Except BackendErr (List Notification × Notification) :=
  match findNotification ns nid with
  | Option.none => .error .notFoundError
  | some n =>
    .ok (updateFirstById ns nid (fun m => { m with status := st }),
         { n with status := st })

/-- Model of `FakeFileBackend.mark_pending_as_sent`. -/
def fakeMarkPendingAsSent (ns : List Notification) (nid : PId) :
    Except BackendErr (List Notification × Notification) :=
  fakeSetStatus ns nid NotificationStatus.sent.value

/-- Model of `FakeFileBackend.mark_pending_as_failed`. -/
def fakeMarkPendingAsFailed (ns : List Notification) (nid : PId) :
    Except BackendErr (List Notification × Notification) :=
  fakeSetStatus ns nid NotificationStatus.failed.value

/-- Model of `FakeFileBackend.mark_sent_as_read`. -/
def fakeMarkSentAsRead (ns : List Notification) (nid : PId) :
    Except BackendErr (List Notification × Notification) :=
  fakeSetStatus ns nid NotificationStatus.read.value

/-- Model of `FakeFileBackend.store_context_used`. -/
def fakeStoreContextUsed (ns : List Notification) (nid : PId) (c : Ctx)
    (adapter_import_str : String) : Except BackendErr (List Notification) :=
  match findNotification ns nid with
  | Option.none => .error .notFoundError
  | some _ =>
    .ok (updateFirstById ns nid
      (fun m => { m with context_used := some c, adapter_used := some adapter_import_str }))

/-- Model of `FakeFileBackend.cancel_notification`: `self.notifications.remove(...)` on
the object found by `get_notification` (the first match by stringified id). -/
def fakeCancelNotification (ns : List Notification) (nid : PId) :
    Except BackendErr (List Notification) :=
  match findNotification ns nid with
  | Option.none => .error .notFoundError
  | some _ =>
    .ok (match ns with
      | [] => []
      | _ => ns.eraseP (fun n => n.id.str == nid.str))

/-- Model of `FakeFileBackend.get_all_pending_notifications` (status `PENDING_SEND` and
`send_after` null or ≤ now). -/
def fakeGetAllPending (ns : List Notification) (now : Int) : List Notification :=
  ns.filter (fun n =>
    n.status == NotificationStatus.pendingSend.value &&
    (match n.send_after with
     | Option.none => true
     | some t => decide (t ≤ now)))

/-- Model of `FakeFileBackend.get_all_future_notifications` (status `PENDING_SEND` and
`send_after` strictly in the future). -/
def fakeGetAllFuture (ns : List Notification) (now : Int) : List Notification :=
  ns.filter (fun n =>
    n.status == NotificationStatus.pendingSend.value &&
    (match n.send_after with
     | Option.none => false
     | some t => decide (now < t)))

/-- Model of `FakeFileBackend.get_all_future_notifications_from_user`; the source keeps
a future notification when it belongs to the user (stringified ids equal) or
when it is a `OneOffNotification` (those carry no `user_id`). -/
def fakeGetAllFutureFromUser (ns : List Notification) (now : Int) (uid : PId) :
    List Notification :=
  ns.filter (fun n =>
    n.status == NotificationStatus.pendingSend.value &&
    (match n.send_after with
     | Option.none => false
     | some t => decide (now < t)) &&
    ((!n.isOneOff && n.user_id.str == uid.str) || n.isOneOff))

/-- Model of `FakeFileBackend.filter_all_in_app_unread_notifications`; unlike the
future-notification queries this one compares `n.user_id == user_id` with raw
Python equality (no `str` coercion) and excludes one-off notifications. -/
def fakeFilterAllInAppUnread (ns : List Notification) (uid : PId) :
    List Notification :=
  ns.filter (fun n =>
    !n.isOneOff &&
    n.user_id == uid &&
    n.status == NotificationStatus.sent.value &&
    n.notification_type == NotificationTypes.inApp.value)

/-- Python list slicing `l[start : stop]` for non-negative bounds, as used by
`FakeFileBackend.__paginate_notifications` and
`FakeFileBackend.get_pending_notifications`. -/
def pySlice (l : List Notification) (start stop : Nat) : List Notification :=
  (l.take stop).drop start

/-- Model of `FakeFileBackend.get_pending_notifications` (page is 1-indexed). -/
def fakeGetPendingNotifications (ns : List Notification) (now : Int)
    (page page_size : Nat) : List Notification :=
  pySlice (fakeGetAllPending ns now) ((page - 1) * page_size)
    ((page - 1) * page_size + page_size)

/-- Model of `FakeFileBackend.get_future_notifications`. -/
def fakeGetFutureNotifications (ns : List Notification) (now : Int)
    (page page_size : Nat) : List Notification :=
  pySlice (fakeGetAllFuture ns now) ((page - 1) * page_size)
    ((page - 1) * page_size + page_size)

/-- Model of `FakeFileBackend.get_future_notifications_from_user`. -/
def fakeGetFutureNotificationsFromUser (ns : List Notification) (now : Int)
    (uid : PId) (page page_size : Nat) : List Notification :=
  pySlice (fakeGetAllFutureFromUser ns now uid) ((page - 1) * page_size)
    ((page - 1) * page_size + page_size)

/-- Model of `FakeFileBackend.filter_in_app_unread_notifications`. -/
def fakeFilterInAppUnread (ns : List Notification) (uid : PId)
    (page page_size : Nat) : List Notification :=
  pySlice (fakeFilterAllInAppUnread ns uid) ((page - 1) * page_size)
    ((page - 1) * page_size + page_size)

/-! ### NotificationContextDict (`dataclasses.py`) -/

/-- A Python runtime value, classified the way the `isinstance` checks of
`NotificationContextDict.__setitem__` do: `pNone` is `None`, `pBool` a `bool`
(a subclass of `int` in Python), `pFloat` a `float` (its numeric payload is
irrelevant here and carried as a string literal), `pList` a `list`, `pDict` a
plain `dict` with string keys, `pCtxDict` a `NotificationContextDict`
instance (itself a `dict` subclass), and `pObj` any other live object. -/
inductive PyValue where
  | pNone
  | pBool (b : Bool)
  | pInt (n : Int)
  | pFloat (repr : String)
  | pStr (s : String)
  | pList (items : List PyValue)
  | pDict (entries : List (String × PyValue))
  | pCtxDict (entries : List (String × PyValue))
  | pObj (className : String)
deriving Repr

/-- Model of `isinstance(x, NotificationContextDict)`. -/
def PyValue.isCtxDict : PyValue → Bool
  | .pCtxDict _ => true
  | _ => false

/-- Model of `isinstance(x, str)` for a would-be key. -/
def PyValue.isPyStr : PyValue → Bool
  | .pStr _ => true
  | _ => false

/-- Model of `NotificationContextDict.__setitem__(key, value)`: returns `true` when the
assignment succeeds and `false` when it raises `TypeError`.  Mirrors the
source: first the key must be a `str`; then the value must satisfy
`isinstance(value, (int | float | str | list | dict))` (note Python `bool` is
an `int` subclass, and a `NotificationContextDict` is a `dict` subclass, while
`None` is none of these); then every item of a `list` value and every value of
a `dict` value must itself be a `NotificationContextDict` instance. -/
def contextDictSetItemOk (key value : PyValue) : Bool :=
  if !key.isPyStr then false
  else
    match value with
    | .pBool _ => true
    | .pInt _ => true
    | .pFloat _ => true
    | .pStr _ => true
    | .pList items => items.all PyValue.isCtxDict
    | .pDict entries => entries.all (fun e => e.2.isCtxDict)
    | .pCtxDict entries => entries.all (fun e => e.2.isCtxDict)
    | _ => false

mutual

/-- Modelled from the spec alone (for comparison with the code): a value is
JSON-safe when it is a number, string, bool, null, or a nested list or nested
dict of such values. -/
def jsonSafeValue : PyValue → Bool
  | .pNone => true
  | .pBool _ => true
  | .pInt _ => true
  | .pFloat _ => true
  | .pStr _ => true
  | .pList items => jsonSafeList items
  | .pDict entries => jsonSafeEntries entries
  | .pCtxDict entries => jsonSafeEntries entries
  | .pObj _ => false

/-- All members of a list are JSON-safe. -/
def jsonSafeList : List PyValue → Bool
  | [] => true
  | x :: xs => jsonSafeValue x && jsonSafeList xs

/-- All values of a string-keyed mapping are JSON-safe. -/
def jsonSafeEntries : List (String × PyValue) → Bool
  | [] => true
  | e :: es => jsonSafeValue e.2 && jsonSafeEntries es

end

/-! ### NotificationService (`notification_service.py`, synchronous variant) -/

/-- The exception values relevant to the control flow of the service, with
`__cause__` chains as payloads.  In the source, `NotificationMarkFailedError`
and `NotificationMarkSentError` are subclasses of `NotificationUpdateError`,
and `NotificationNotFoundError` is not; the service's `except
NotificationUpdateError` clauses therefore do not catch not-found errors. -/
inductive PyExc where
  | adapterExc (adapter_import_str : String)
  | updateErr
  | notFoundErr
  | ctxGenErr
  | sendErr (cause : PyExc)
  | markFailedErr (cause : PyExc)
  | markSentErr (cause : PyExc)
deriving DecidableEq, Repr

/-- A configured notification adapter, as the service sees it:
its `notification_type` tag, whether it is an `AsyncBaseNotificationAdapter`
(deferred-capable), its `adapter_import_str` identity, and an abstraction of
its `send` method (`sendOk = false` means `send` raises). -/
structure Adapter where
  notification_type : NotificationTypes
  isAsyncBase : Bool
  sendOk : Bool
  adapter_import_str : String
deriving DecidableEq, Repr

/-- The context registry (`Contexts`): a map from context name to registered
function; the function receives the notification's `context_kwargs` and
either returns a context or raises (modelled by `Option.none`). -/
abbrev Registry := String → Option (Ctx → Option Ctx)

/-- The persistence-backend operations the synchronous service invokes,
abstracted over the backend state `σ`.  Each fallible operation either
returns the new state or raises a backend error; on an error the state is
unchanged (as in `FakeFileBackend`, which mutates nothing before raising). -/
structure BackendOps (σ : Type) where
  persist_notification : σ → Notification → σ × Notification
  mark_pending_as_sent : σ → PId → Except BackendErr σ
  mark_pending_as_failed : σ → PId → Except BackendErr σ
  store_context_used : σ → PId → Ctx → String → Except BackendErr σ
  get_all_pending_notifications : σ → Int → List Notification

/-- The outcome of one `NotificationService.send` call: the final backend
state, the ordered list of adapters whose `send` method was invoked
(by `adapter_import_str`), and the exception the call raised, if any. -/
structure SendResult (σ : Type) where
  state : σ
  calls : List String
  outcome : Option PyExc
deriving DecidableEq, Repr

/-- Model of `NotificationService.get_notification_context`: look the context function
up by `notification.context_name` (absence raises
`NotificationContextGenerationError`), invoke it on the notification's
`context_kwargs`, and wrap any exception it raises in the same error. -/
def get_notification_context (reg : Registry) (n : Notification) :
    Except PyExc Ctx :=
  match reg n.context_name with
  | Option.none => .error .ctxGenErr
  | some f =>
    match f n.context_kwargs with
    | Option.none => .error .ctxGenErr
    | some c => .ok c

/-- The `try ... except NotificationUpdateError` pattern around a backend
call in the service: a success continues with the new state; an update error
takes the corresponding `except` branch; a not-found error is not caught by
`except NotificationUpdateError` and propagates unconverted. -/
def onBackendResult {σ : Type} (r : Except BackendErr σ)
    (okF : σ → SendResult σ) (updErr nfErr : SendResult σ) : SendResult σ :=
  match r with
  | .ok s => okF s
  | .error .updateError => updErr
  | .error .notFoundError => nfErr

@[simp] theorem onBackendResult_ok {σ : Type} (s : σ)
    (okF : σ → SendResult σ) (updErr nfErr : SendResult σ) :
    onBackendResult (.ok s) okF updErr nfErr = okF s := rfl

@[simp] theorem onBackendResult_updErr {σ : Type}
    (okF : σ → SendResult σ) (updErr nfErr : SendResult σ) :
    onBackendResult (.error .updateError) okF updErr nfErr = updErr := rfl

@[simp] theorem onBackendResult_nfErr {σ : Type}
    (okF : σ → SendResult σ) (updErr nfErr : SendResult σ) :
    onBackendResult (.error .notFoundError) okF updErr nfErr = nfErr := rfl

/-- The adapter loop of `NotificationService.send` (lines 187-216 of
`notification_service.py`).  Adapters whose `notification_type.value` differs
from the notification's type are skipped.  For a matching adapter, `send` is
invoked; on success a deferred-capable (`AsyncBaseNotificationAdapter`)
adapter makes the method return at once, while for a plain adapter
`mark_pending_as_sent` and `store_context_used` run, after which the loop
continues with the next adapter (the source has no `break`).  An exception
from `send` is wrapped as `NotificationSendError`, `mark_pending_as_failed`
runs, and either the send-error or (when marking raised an update error) a
mark-failed-error chained from it propagates; a not-found error from a mark
operation propagates unconverted. -/
def sendLoop {σ : Type} (B : BackendOps σ) (n : Notification) (c : Ctx) :
    List Adapter → σ → List String → SendResult σ
  | [], s, calls => ⟨s, calls, Option.none⟩
  | a :: rest, s, calls =>
    if a.notification_type.value ≠ n.notification_type then
      sendLoop B n c rest s calls
    else if a.sendOk then
      if a.isAsyncBase then ⟨s, calls ++ [a.adapter_import_str], Option.none⟩
      else
        onBackendResult (B.mark_pending_as_sent s n.id)
          (fun s1 =>
            onBackendResult (B.store_context_used s1 n.id c a.adapter_import_str)
              (fun s2 => sendLoop B n c rest s2 (calls ++ [a.adapter_import_str]))
              ⟨s1, calls ++ [a.adapter_import_str], some (.markSentErr .updateErr)⟩
              ⟨s1, calls ++ [a.adapter_import_str], some .notFoundErr⟩)
          ⟨s, calls ++ [a.adapter_import_str], some (.markSentErr .updateErr)⟩
          ⟨s, calls ++ [a.adapter_import_str], some .notFoundErr⟩
    else
      onBackendResult (B.mark_pending_as_failed s n.id)
        (fun s1 =>
          ⟨s1, calls ++ [a.adapter_import_str],
           some (.sendErr (.adapterExc a.adapter_import_str))⟩)
        ⟨s, calls ++ [a.adapter_import_str],
         some (.markFailedErr (.sendErr (.adapterExc a.adapter_import_str)))⟩
        ⟨s, calls ++ [a.adapter_import_str], some .notFoundErr⟩

/-- Model of `NotificationService.send`: generate the context; on a context-generation
failure attempt `mark_pending_as_failed` (raising a mark-failed-error chained
from an update error, returning silently otherwise, with no adapter touched);
on context success run the adapter loop. -/
def NotificationService.send {σ : Type} (B : BackendOps σ)
    (adapters : List Adapter) (reg : Registry) (s : σ) (n : Notification) :
    SendResult σ :=
  match get_notification_context reg n with
  | .error _ =>
    onBackendResult (B.mark_pending_as_failed s n.id)
      (fun s1 => ⟨s1, [], Option.none⟩)
      ⟨s, [], some (.markFailedErr .updateErr)⟩
      ⟨s, [], some .notFoundErr⟩
  | .ok c => sendLoop B n c adapters s []

/-- Model of `send_after is None or send_after <= datetime.datetime.now(tz=utc)`. -/
def dueNow (send_after : Option Int) (now : Int) : Bool :=
  match send_after with
  | Option.none => true
  | some t => decide (t ≤ now)

/-- The outcome of `NotificationService.create_notification`: final state,
adapter invocations, raised exception if any, and the value the call
returned (`Option.none` when an exception propagated instead). -/
structure CreateResult (σ : Type) where
  state : σ
  calls : List String
  outcome : Option PyExc
  returned : Option Notification
deriving DecidableEq, Repr

/-- Model of `NotificationService.create_notification`: persist via the backend first;
then, when the persisted record's `send_after` is null or ≤ now, call `send`;
finally return the persisted record — unless `send` raised, in which case the
exception propagates and nothing is returned. -/
def NotificationService.create_notification {σ : Type} (B : BackendOps σ)
    (adapters : List Adapter) (reg : Registry) (now : Int) (s : σ)
    (args : Notification) : CreateResult σ :=
  let p := B.persist_notification s args
  if dueNow p.2.send_after now then
    let r := NotificationService.send B adapters reg p.1 p.2
    ⟨r.state, r.calls, r.outcome,
     if r.outcome = Option.none then some p.2 else Option.none⟩
  else ⟨p.1, [], Option.none, some p.2⟩

/-- The outcome of `NotificationService.send_pending_notifications`: final
state, the counters logged at the end, adapter invocations across the batch,
the per-notification raised-exception record (`Option.none` for a send that
returned normally), and the exception that escaped the method, if any. -/
structure PendingRunResult (σ : Type) where
  state : σ
  sent : Nat
  failed : Nat
  calls : List String
  outcomes : List (Option PyExc)
  escaped : Option PyExc
deriving DecidableEq, Repr

/-- The `except` dispatch of `send_pending_notifications` around one `send`
call: a normal return and a `NotificationMarkSentError` land in the
sent tally (in the latter case the notification went out, only the marking
failed), a `NotificationSendError` or `NotificationMarkFailedError` in the
failed tally; any other exception is caught by none of the clauses and
escapes the method. -/
def classifySendOutcome {σ : Type} (r : SendResult σ)
    (sentCase failCase escapeCase : PendingRunResult σ) : PendingRunResult σ :=
  match r.outcome with
  | Option.none => sentCase
  | some (.sendErr _) => failCase
  | some (.markFailedErr _) => failCase
  | some (.markSentErr _) => sentCase
  | some _ => escapeCase

/-- The loop of `NotificationService.send_pending_notifications`: each pending
notification is sent and the outcome tallied; an uncaught exception aborts
the loop. -/
def sendPendingLoop {σ : Type} (B : BackendOps σ) (adapters : List Adapter)
    (reg : Registry) :
    List Notification → σ → Nat → Nat → List String → List (Option PyExc) →
    PendingRunResult σ
  | [], s, sent, failed, calls, outs => ⟨s, sent, failed, calls, outs, Option.none⟩
  | n :: rest, s, sent, failed, calls, outs =>
    classifySendOutcome (NotificationService.send B adapters reg s n)
      (sendPendingLoop B adapters reg rest
        (NotificationService.send B adapters reg s n).state (sent + 1) failed
        (calls ++ (NotificationService.send B adapters reg s n).calls)
        (outs ++ [(NotificationService.send B adapters reg s n).outcome]))
      (sendPendingLoop B adapters reg rest
        (NotificationService.send B adapters reg s n).state sent (failed + 1)
        (calls ++ (NotificationService.send B adapters reg s n).calls)
        (outs ++ [(NotificationService.send B adapters reg s n).outcome]))
      ⟨(NotificationService.send B adapters reg s n).state, sent, failed,
       calls ++ (NotificationService.send B adapters reg s n).calls,
       outs ++ [(NotificationService.send B adapters reg s n).outcome],
       (NotificationService.send B adapters reg s n).outcome⟩

/-- Model of `NotificationService.send_pending_notifications`: fetch the pending set
once, then attempt `send` on each entry, tallying sent/failed counts. -/
def NotificationService.send_pending_notifications {σ : Type}
    (B : BackendOps σ) (adapters : List Adapter) (reg : Registry) (now : Int)
    (s : σ) : PendingRunResult σ :=
  sendPendingLoop B adapters reg (B.get_all_pending_notifications s now) s 0 0 [] []

/-! ### The FakeFileBackend instantiation of the backend operations -/

/-- The state of a `FakeFileBackend`: the notification list plus a counter
standing in for `uuid.uuid4()` freshness in `persist_notification`. -/
structure FakeState where
  notifications : List Notification
  nextId : Nat
deriving DecidableEq, Repr

/-- Stringified ids of the stored notifications, in storage order. -/
def idsOf (fs : FakeState) : List String :=
  fs.notifications.map (fun n => n.id.str)

/-- Model of `FakeFileBackend.persist_notification`: build a fresh `Notification` with
a fresh id and status `PENDING_SEND`, append it, and return it.  Only the
fields the caller supplies are taken from `args`; identity, status and the
audit fields are set here, exactly as in the source constructor call. -/
def fakePersistNotification (fs : FakeState) (args : Notification) :
    FakeState × Notification :=
  let n : Notification :=
    { args with
      id := PId.pStr (toString fs.nextId)
      status := NotificationStatus.pendingSend.value
      context_used := Option.none
      adapter_used := Option.none
      isOneOff := false }
  (⟨fs.notifications ++ [n], fs.nextId + 1⟩, n)

/-- Model of `FakeFileBackend.mark_pending_as_sent` on the packaged state (the
returned notification object is discarded, as the service discards it). -/
def fakeOpsMarkSent (fs : FakeState) (nid : PId) : Except BackendErr FakeState :=
  match fakeMarkPendingAsSent fs.notifications nid with
  | .ok p => .ok ⟨p.1, fs.nextId⟩
  | .error e => .error e

/-- Model of `FakeFileBackend.mark_pending_as_failed` on the packaged state. -/
def fakeOpsMarkFailed (fs : FakeState) (nid : PId) : Except BackendErr FakeState :=
  match fakeMarkPendingAsFailed fs.notifications nid with
  | .ok p => .ok ⟨p.1, fs.nextId⟩
  | .error e => .error e

/-- Model of `FakeFileBackend.store_context_used` on the packaged state. -/
def fakeOpsStoreContext (fs : FakeState) (nid : PId) (c : Ctx) (a : String) :
    Except BackendErr FakeState :=
  match fakeStoreContextUsed fs.notifications nid c a with
  | .ok ns => .ok ⟨ns, fs.nextId⟩
  | .error e => .error e

/-- Model of `FakeFileBackend`, packaged as the operations the service consumes. -/
def fakeOps : BackendOps FakeState :=
  { persist_notification := fakePersistNotification
    mark_pending_as_sent := fakeOpsMarkSent
    mark_pending_as_failed := fakeOpsMarkFailed
    store_context_used := fakeOpsStoreContext
    get_all_pending_notifications := fun fs now =>
      fakeGetAllPending fs.notifications now }

/-- Status of the first stored notification with the given id, if any. -/
def statusOfId (fs : FakeState) (nid : PId) : Option String :=
  (findNotification fs.notifications nid).map (fun n => n.status)

/-! ### Sample data used to instantiate the theorems -/

/-- A sample notification with the given id string, type value, context name,
`send_after` and status; the remaining fields are fixed filler. -/
def mkNotif (i : String) (ty : String) (cn : String) (sa : Option Int)
    (st : String) : Notification :=
  { id := PId.pStr i
    user_id := PId.pInt 1
    notification_type := ty
    title := "title"
    body_template := "body"
    context_name := cn
    context_kwargs := []
    send_after := sa
    subject_template := "subject"
    preheader_template := "preheader"
    status := st
    context_used := Option.none
    adapter_used := Option.none
    isOneOff := false
    email_or_phone := ""
    first_name := ""
    last_name := "" }

/-- A registry with exactly one context function, named `greet`, that
succeeds. -/
def sampleRegistry : Registry := fun name =>
  if name = "greet" then some (fun _ => some [("name", "X")]) else Option.none

/-- Two ordinary (non-deferred) email adapters whose `send` succeeds. -/
def adapterA : Adapter := ⟨NotificationTypes.email, false, true, "a1"⟩

/-- See `adapterA`. -/
def adapterB : Adapter := ⟨NotificationTypes.email, false, true, "a2"⟩

/-- An email adapter whose `send` raises. -/
def adapterFailing : Adapter := ⟨NotificationTypes.email, false, false, "af"⟩

/-- A deferred-capable (`AsyncBaseNotificationAdapter`) email adapter whose
`send` succeeds. -/
def adapterDeferred : Adapter := ⟨NotificationTypes.email, true, true, "ad"⟩

/-- A push adapter (never matches the email notifications of the samples). -/
def adapterPush : Adapter := ⟨NotificationTypes.push, false, true, "ap"⟩

/-! ### Pagination helper lemmas -/

theorem pySlice_getElem? (l : List Notification) (a sz i : Nat) :
    (pySlice l a (a + sz))[i]? = if i < sz then l[a + i]? else Option.none := by
  unfold pySlice
  by_cases h : i < sz
  · rw [if_pos h, List.getElem?_drop, List.getElem?_take_of_lt]
    omega
  · rw [if_neg h]
    apply List.getElem?_eq_none
    have h1 : (List.take (a + sz) l).length ≤ a + sz := by
      simpa using Nat.min_le_left (a + sz) l.length
    have h2 : ((List.take (a + sz) l).drop a).length
        = (List.take (a + sz) l).length - a := List.length_drop a _
    omega

theorem pySlice_past_end (l : List Notification) (a b : Nat)
    (h : l.length ≤ a) : pySlice l a b = [] := by
  unfold pySlice
  apply List.drop_eq_nil_of_le
  have := List.length_take b l
  omega

/-! ### Findable-id helper lemmas -/

theorem findNotification_eq_none (ns : List Notification) (q : PId)
    (h : ∀ n ∈ ns, n.id.str ≠ q.str) : findNotification ns q = Option.none := by
  unfold findNotification
  rw [List.find?_eq_none]
  intro x hx
  exact fun hc => h x hx (by simpa using hc)

theorem findNotification_mem_str (ns : List Notification) (q : PId)
    (n : Notification) (h : findNotification ns q = some n) :
    n ∈ ns ∧ n.id.str = q.str := by
  unfold findNotification at h
  refine ⟨List.mem_of_find?_eq_some h, ?_⟩
  have := List.find?_some h
  simpa using this

theorem findNotification_isSome (ns : List Notification) (q : PId)
    (n : Notification) (hmem : n ∈ ns) (hstr : n.id.str = q.str) :
    ∃ m, findNotification ns q = some m ∧ m.id.str = q.str := by
  unfold findNotification
  rcases hfind : ns.find? (fun x => x.id.str == q.str) with _ | m
  · rw [List.find?_eq_none] at hfind
    exact absurd (by simpa using hstr) (by simpa using hfind n hmem)
  · exact ⟨m, hfind, by simpa using List.find?_some hfind⟩

/-! ### Claim C8 — pagination contract of the fake backend queries -/

/-- Claim C8: For every page `p ≥ 1` and page size `sz ≥ 0`, each paginated
query of `FakeFileBackend` (`get_pending_notifications`,
`get_future_notifications`, `get_future_notifications_from_user`,
`filter_in_app_unread_notifications`) returns exactly the records at
positions `[(p-1)*sz, p*sz)` of the corresponding filtered sequence
(element `i` of the page is element `(p-1)*sz + i` of the filtered sequence,
for `i < sz`, and nothing else), and a page starting at or past the end of
the filtered sequence is empty rather than an error. -/
theorem C8_pagination (ns : List Notification) (now : Int) (uid : PId)
    (page sz : Nat) (hp : 1 ≤ page) :
    (∀ i, (fakeGetPendingNotifications ns now page sz)[i]? =
      if i < sz then (fakeGetAllPending ns now)[(page - 1) * sz + i]?
      else Option.none)
    ∧ (∀ i, (fakeGetFutureNotifications ns now page sz)[i]? =
      if i < sz then (fakeGetAllFuture ns now)[(page - 1) * sz + i]?
      else Option.none)
    ∧ (∀ i, (fakeGetFutureNotificationsFromUser ns now uid page sz)[i]? =
      if i < sz then (fakeGetAllFutureFromUser ns now uid)[(page - 1) * sz + i]?
      else Option.none)
    ∧ (∀ i, (fakeFilterInAppUnread ns uid page sz)[i]? =
      if i < sz then (fakeFilterAllInAppUnread ns uid)[(page - 1) * sz + i]?
      else Option.none)
    ∧ ((fakeGetAllPending ns now).length ≤ (page - 1) * sz →
      fakeGetPendingNotifications ns now page sz = [])
    ∧ ((fakeGetAllFuture ns now).length ≤ (page - 1) * sz →
      fakeGetFutureNotifications ns now page sz = [])
    ∧ ((fakeGetAllFutureFromUser ns now uid).length ≤ (page - 1) * sz →
      fakeGetFutureNotificationsFromUser ns now uid page sz = [])
    ∧ ((fakeFilterAllInAppUnread ns uid).length ≤ (page - 1) * sz →
      fakeFilterInAppUnread ns uid page sz = []) :=
  ⟨fun i => pySlice_getElem? _ _ _ i,
   fun i => pySlice_getElem? _ _ _ i,
   fun i => pySlice_getElem? _ _ _ i,
   fun i => pySlice_getElem? _ _ _ i,
   fun h => pySlice_past_end _ _ _ h,
   fun h => pySlice_past_end _ _ _ h,
   fun h => pySlice_past_end _ _ _ h,
   fun h => pySlice_past_end _ _ _ h⟩

/-- Witness for C8: pagination of a concrete three-element pending set with
`page = 2`, `page_size = 2`: position 2 of the filtered sequence is the only
entry of the second page, and page 3 is empty. -/
theorem C8_pagination_witness :
    1 ≤ 2
    ∧ (fakeGetPendingNotifications
        [mkNotif "x" "EMAIL" "greet" Option.none "PENDING_SEND",
         mkNotif "y" "EMAIL" "greet" Option.none "PENDING_SEND",
         mkNotif "z" "EMAIL" "greet" Option.none "PENDING_SEND"] 0 2 2)[0]? =
      (fakeGetAllPending
        [mkNotif "x" "EMAIL" "greet" Option.none "PENDING_SEND",
         mkNotif "y" "EMAIL" "greet" Option.none "PENDING_SEND",
         mkNotif "z" "EMAIL" "greet" Option.none "PENDING_SEND"] 0)[2]?
    ∧ fakeGetPendingNotifications
        [mkNotif "x" "EMAIL" "greet" Option.none "PENDING_SEND",
         mkNotif "y" "EMAIL" "greet" Option.none "PENDING_SEND",
         mkNotif "z" "EMAIL" "greet" Option.none "PENDING_SEND"] 0 3 2 = [] := by
  refine ⟨by decide, ?_, ?_⟩
  · have h := (C8_pagination
      [mkNotif "x" "EMAIL" "greet" Option.none "PENDING_SEND",
       mkNotif "y" "EMAIL" "greet" Option.none "PENDING_SEND",
       mkNotif "z" "EMAIL" "greet" Option.none "PENDING_SEND"] 0 (PId.pInt 1) 2 2
      (by decide)).1 0
    simpa using h
  · exact (C8_pagination
      [mkNotif "x" "EMAIL" "greet" Option.none "PENDING_SEND",
       mkNotif "y" "EMAIL" "greet" Option.none "PENDING_SEND",
       mkNotif "z" "EMAIL" "greet" Option.none "PENDING_SEND"] 0 (PId.pInt 1) 3 2
      (by decide)).2.2.2.2.1 (by decide)

/-! ### Claim C10 — id lookup by stringified equality -/

/-- Claim C10: `FakeFileBackend.get_notification` retrieves the stored
notification exactly when the string form of the requested id equals the
string form of the stored id (so the same record is found whether the id is
supplied as a UUID, an int, or its string rendering — the first conjunct),
and raises a not-found error when no stored notification matches. -/
theorem C10_get_notification (ns : List Notification) (q : PId) :
    fakeGetNotification ns (PId.pStr q.str) = fakeGetNotification ns q
    ∧ (∀ n, fakeGetNotification ns q = .ok n → n ∈ ns ∧ n.id.str = q.str)
    ∧ ((∀ n ∈ ns, n.id.str ≠ q.str) →
      fakeGetNotification ns q = .error .notFoundError)
    ∧ (∀ n ∈ ns, n.id.str = q.str →
      ∃ m, fakeGetNotification ns q = .ok m ∧ m.id.str = q.str) := by
  refine ⟨rfl, ?_, ?_, ?_⟩
  · intro n h
    unfold fakeGetNotification at h
    rcases hf : findNotification ns q with _ | m
    · rw [hf] at h; exact absurd h (by simp)
    · rw [hf] at h
      have hm : m = n := by simpa using h
      exact hm ▸ findNotification_mem_str ns q m hf
  · intro h
    unfold fakeGetNotification
    rw [findNotification_eq_none ns q h]
  · intro n hmem hstr
    obtain ⟨m, hm, hms⟩ := findNotification_isSome ns q n hmem hstr
    exact ⟨m, by unfold fakeGetNotification; rw [hm], hms⟩

/-- Witness for C10: one stored notification with id string `"7"` is
retrieved by the integer id `7`, by the UUID-shaped id with the same
rendering, and by the plain string `"7"`. -/
theorem C10_get_notification_witness :
    (∃ m, fakeGetNotification [mkNotif "7" "EMAIL" "greet" Option.none "PENDING_SEND"]
      (PId.pInt 7) = .ok m ∧ m.id.str = (PId.pInt 7).str)
    ∧ fakeGetNotification [mkNotif "7" "EMAIL" "greet" Option.none "PENDING_SEND"]
        (PId.pStr "7") =
      fakeGetNotification [mkNotif "7" "EMAIL" "greet" Option.none "PENDING_SEND"]
        (PId.pInt 7) := by
  have h := C10_get_notification
    [mkNotif "7" "EMAIL" "greet" Option.none "PENDING_SEND"] (PId.pInt 7)
  exact ⟨h.2.2.2 (mkNotif "7" "EMAIL" "greet" Option.none "PENDING_SEND")
    (by simp) (by decide), h.1⟩

/-! ### Claim C3 — the fake backend does not guard status transitions -/

/-- Claim C3, evaluated at the failing input (a `code_bug`: the abstract
backend contract in `notification_backends/base.py` documents that
`persist_notification_update` "should raise a NotificationUpdateError" for an
already-sent notification, and the claim and spec state the same, but
`FakeFileBackend.persist_notification_update` applies the patch with no
status check).  At a store holding a single SENT notification, a title update
succeeds and mutates the record instead of raising an update-error; likewise
`mark_pending_as_sent` happily moves a FAILED record to SENT and
`mark_sent_as_read` moves a PENDING_SEND record to READ, off the monotonic
paths. -/
theorem C3_fake_backend_unguarded_transitions :
    fakePersistNotificationUpdate
      [mkNotif "s1" "EMAIL" "greet" Option.none "SENT"] (PId.pStr "s1")
      { UpdatePatch.empty with title := some "changed" } =
      .ok ([{ mkNotif "s1" "EMAIL" "greet" Option.none "SENT" with title := "changed" }],
           { mkNotif "s1" "EMAIL" "greet" Option.none "SENT" with title := "changed" })
    ∧ fakeMarkPendingAsSent
        [mkNotif "f1" "EMAIL" "greet" Option.none "FAILED"] (PId.pStr "f1") =
      .ok ([{ mkNotif "f1" "EMAIL" "greet" Option.none "FAILED" with status := "SENT" }],
           { mkNotif "f1" "EMAIL" "greet" Option.none "FAILED" with status := "SENT" })
    ∧ fakeMarkSentAsRead
        [mkNotif "p1" "EMAIL" "greet" Option.none "PENDING_SEND"] (PId.pStr "p1") =
      .ok ([{ mkNotif "p1" "EMAIL" "greet" Option.none "PENDING_SEND" with status := "READ" }],
           { mkNotif "p1" "EMAIL" "greet" Option.none "PENDING_SEND" with status := "READ" }) := by
  refine ⟨?_, ?_, ?_⟩ <;> rfl

/-! ### Claim C4 — NotificationContextDict assignment validation -/

/-- Claim C4, counterexample: The claim states that every JSON-safe value under
a string key is accepted by `NotificationContextDict.__setitem__`.  It is
false: `None` is JSON-safe (the claim's own list includes null) yet raises
`TypeError`, because the `isinstance(value, (int | float | str | list |
dict))` test excludes `NoneType`; and the JSON-safe list `[1, 2]` raises too,
because `_validate_list_item` demands every item be a
`NotificationContextDict` instance, not merely JSON-safe. -/
theorem C4_counterexample :
    (PyValue.pStr "k").isPyStr = true
    ∧ jsonSafeValue PyValue.pNone = true
    ∧ contextDictSetItemOk (PyValue.pStr "k") PyValue.pNone = false
    ∧ jsonSafeValue (PyValue.pList [PyValue.pInt 1, PyValue.pInt 2]) = true
    ∧ contextDictSetItemOk (PyValue.pStr "k")
        (PyValue.pList [PyValue.pInt 1, PyValue.pInt 2]) = false := by
  refine ⟨rfl, rfl, rfl, rfl, rfl⟩

/-- Claim C4, amended: An assignment into a `NotificationContextDict` succeeds
exactly when the key is a string and the value is an int, bool (a Python
`int` subclass), float or string, or a list all of whose items are
`NotificationContextDict` instances, or a dict (plain or
`NotificationContextDict`) all of whose values are `NotificationContextDict`
instances.  Every other key or value — including the JSON-safe values `None`
and lists/dicts with non-`NotificationContextDict` members — raises a
`TypeError` synchronously inside `__setitem__`, hence before any persistence
or send. -/
theorem C4_amended_setitem (k v : PyValue) :
    contextDictSetItemOk k v = true ↔
      (k.isPyStr = true ∧
        ((∃ b, v = PyValue.pBool b)
         ∨ (∃ n, v = PyValue.pInt n)
         ∨ (∃ r, v = PyValue.pFloat r)
         ∨ (∃ s, v = PyValue.pStr s)
         ∨ (∃ items, v = PyValue.pList items ∧ ∀ x ∈ items, x.isCtxDict = true)
         ∨ (∃ es, v = PyValue.pDict es ∧ ∀ e ∈ es, e.2.isCtxDict = true)
         ∨ (∃ es, v = PyValue.pCtxDict es ∧ ∀ e ∈ es, e.2.isCtxDict = true))) := by
  unfold contextDictSetItemOk
  cases k <;> simp [PyValue.isPyStr] <;>
    cases v <;> simp [List.all_eq_true]

/-- Witness for C4's amended theorem: a one-entry list of
`NotificationContextDict` instances is accepted under a string key, as the
amended right-hand side predicts. -/
theorem C4_amended_setitem_witness :
    contextDictSetItemOk (PyValue.pStr "k")
      (PyValue.pList [PyValue.pCtxDict [("a", PyValue.pInt 1)]]) = true := by
  exact (C4_amended_setitem (PyValue.pStr "k")
    (PyValue.pList [PyValue.pCtxDict [("a", PyValue.pInt 1)]])).mpr
    ⟨rfl, Or.inr (Or.inr (Or.inr (Or.inr (Or.inl
      ⟨[PyValue.pCtxDict [("a", PyValue.pInt 1)]], rfl, by
        intro x hx
        simp only [List.mem_singleton] at hx
        subst hx
        rfl⟩))))⟩

/-! ### Structure lemmas for the adapter loop -/

/-- The calls accumulator of the adapter loop only ever grows. -/
theorem sendLoop_calls_append {σ : Type} (B : BackendOps σ) (n : Notification)
    (c : Ctx) :
    ∀ (l : List Adapter) (s : σ) (calls : List String),
      ∃ t, (sendLoop B n c l s calls).calls = calls ++ t := by
  intro l
  induction l with
  | nil => intro s calls; exact ⟨[], by simp [sendLoop]⟩
  | cons a rest ih =>
    intro s calls
    unfold sendLoop
    split
    · exact ih s calls
    · split
      · split
        · exact ⟨[a.adapter_import_str], by simp⟩
        · rcases B.mark_pending_as_sent s n.id with e | s1
          · cases e <;> exact ⟨[a.adapter_import_str], by simp [onBackendResult]⟩
          · simp only [onBackendResult_ok]
            rcases B.store_context_used s1 n.id c a.adapter_import_str with e | s2
            · cases e <;> exact ⟨[a.adapter_import_str], by simp [onBackendResult]⟩
            · simp only [onBackendResult_ok]
              obtain ⟨t, ht⟩ := ih s2 (calls ++ [a.adapter_import_str])
              exact ⟨[a.adapter_import_str] ++ t, by simp [ht]⟩
      · rcases B.mark_pending_as_failed s n.id with e | s1
        · cases e <;> exact ⟨[a.adapter_import_str], by simp [onBackendResult]⟩
        · exact ⟨[a.adapter_import_str], by simp [onBackendResult]⟩

/-- Adapters whose type does not match are skipped without any effect. -/
theorem sendLoop_skip {σ : Type} (B : BackendOps σ) (n : Notification)
    (c : Ctx) (pre : List Adapter)
    (hpre : ∀ a ∈ pre, a.notification_type.value ≠ n.notification_type) :
    ∀ (rest : List Adapter) (s : σ) (calls : List String),
      sendLoop B n c (pre ++ rest) s calls = sendLoop B n c rest s calls := by
  induction pre with
  | nil => intro rest s calls; rfl
  | cons a pre' ih =>
    intro rest s calls
    have ha : a.notification_type.value ≠ n.notification_type :=
      hpre a (by simp)
    have h' : ∀ x ∈ pre', x.notification_type.value ≠ n.notification_type :=
      fun x hx => hpre x (by simp [hx])
    rw [List.cons_append]
    unfold sendLoop
    rw [if_pos ha]
    rw [ih h' rest s calls]
    cases rest <;> rfl

/-- A run over only non-matching adapters returns with no effect. -/
theorem sendLoop_no_match {σ : Type} (B : BackendOps σ) (n : Notification)
    (c : Ctx) (l : List Adapter)
    (hl : ∀ a ∈ l, a.notification_type.value ≠ n.notification_type)
    (s : σ) (calls : List String) :
    sendLoop B n c l s calls = ⟨s, calls, Option.none⟩ := by
  have h := sendLoop_skip B n c l hl [] s calls
  rw [List.append_nil] at h
  rw [h]
  rfl

/-- One unfolding step of the adapter loop at a matching adapter. -/
theorem sendLoop_match_head {σ : Type} (B : BackendOps σ) (n : Notification)
    (c : Ctx) (a : Adapter) (post : List Adapter) (s : σ) (calls : List String)
    (ha : a.notification_type.value = n.notification_type) :
    sendLoop B n c (a :: post) s calls =
      (if a.sendOk then
        if a.isAsyncBase then ⟨s, calls ++ [a.adapter_import_str], Option.none⟩
        else
          onBackendResult (B.mark_pending_as_sent s n.id)
            (fun s1 =>
              onBackendResult (B.store_context_used s1 n.id c a.adapter_import_str)
                (fun s2 => sendLoop B n c post s2 (calls ++ [a.adapter_import_str]))
                ⟨s1, calls ++ [a.adapter_import_str], some (.markSentErr .updateErr)⟩
                ⟨s1, calls ++ [a.adapter_import_str], some .notFoundErr⟩)
            ⟨s, calls ++ [a.adapter_import_str], some (.markSentErr .updateErr)⟩
            ⟨s, calls ++ [a.adapter_import_str], some .notFoundErr⟩
      else
        onBackendResult (B.mark_pending_as_failed s n.id)
          (fun s1 =>
            ⟨s1, calls ++ [a.adapter_import_str],
             some (.sendErr (.adapterExc a.adapter_import_str))⟩)
          ⟨s, calls ++ [a.adapter_import_str],
           some (.markFailedErr (.sendErr (.adapterExc a.adapter_import_str)))⟩
          ⟨s, calls ++ [a.adapter_import_str], some .notFoundErr⟩) := by
  unfold sendLoop
  rw [if_neg (by simp [ha])]
  cases post <;> rfl

/-- The configured adapters whose `notification_type.value` equals the
notification's type, in configured order (the routing test of the loop). -/
def matchingAdapters (adapters : List Adapter) (n : Notification) :
    List Adapter :=
  adapters.filter (fun a => a.notification_type.value == n.notification_type)

/-- A matching adapter at the head of the loop is always the next adapter
invoked: the call list extends by its identity first. -/
theorem sendLoop_match_calls {σ : Type} (B : BackendOps σ) (n : Notification)
    (c : Ctx) (a : Adapter) (post : List Adapter) (s : σ) (calls : List String)
    (ha : a.notification_type.value = n.notification_type) :
    ∃ t, (sendLoop B n c (a :: post) s calls).calls =
      calls ++ [a.adapter_import_str] ++ t := by
  rw [sendLoop_match_head B n c a post s calls ha]
  by_cases hok : a.sendOk = true
  · rw [if_pos hok]
    by_cases hd : a.isAsyncBase = true
    · rw [if_pos hd]; exact ⟨[], by simp⟩
    · rw [if_neg hd]
      rcases B.mark_pending_as_sent s n.id with e | s1
      · cases e <;> exact ⟨[], by simp [onBackendResult]⟩
      · simp only [onBackendResult_ok]
        rcases B.store_context_used s1 n.id c a.adapter_import_str with e | s2
        · cases e <;> exact ⟨[], by simp [onBackendResult]⟩
        · simp only [onBackendResult_ok]
          obtain ⟨t, ht⟩ :=
            sendLoop_calls_append B n c post s2 (calls ++ [a.adapter_import_str])
          exact ⟨t, by simp [ht]⟩
  · rw [if_neg hok]
    rcases B.mark_pending_as_failed s n.id with e | s1
    · cases e <;> exact ⟨[], by simp [onBackendResult]⟩
    · exact ⟨[], by simp [onBackendResult]⟩

/-- With a matching adapter at the head and no further matching adapter, the
call list extends by exactly that adapter. -/
theorem sendLoop_match_unique {σ : Type} (B : BackendOps σ) (n : Notification)
    (c : Ctx) (a : Adapter) (post : List Adapter) (s : σ) (calls : List String)
    (ha : a.notification_type.value = n.notification_type)
    (hpost : ∀ x ∈ post, x.notification_type.value ≠ n.notification_type) :
    (sendLoop B n c (a :: post) s calls).calls =
      calls ++ [a.adapter_import_str] := by
  rw [sendLoop_match_head B n c a post s calls ha]
  by_cases hok : a.sendOk = true
  · rw [if_pos hok]
    by_cases hd : a.isAsyncBase = true
    · rw [if_pos hd]
    · rw [if_neg hd]
      rcases B.mark_pending_as_sent s n.id with e | s1
      · cases e <;> rfl
      · simp only [onBackendResult_ok]
        rcases B.store_context_used s1 n.id c a.adapter_import_str with e | s2
        · cases e <;> rfl
        · simp only [onBackendResult_ok]
          rw [sendLoop_no_match B n c post hpost]
  · rw [if_neg hok]
    rcases B.mark_pending_as_failed s n.id with e | s1
    · cases e <;> rfl
    · rfl

/-- The first adapter invoked by the loop is the first matching adapter. -/
theorem sendLoop_calls_head {σ : Type} (B : BackendOps σ) (n : Notification)
    (c : Ctx) :
    ∀ (l : List Adapter) (s : σ),
      ((sendLoop B n c l s []).calls).head? =
        ((matchingAdapters l n).head?).map (fun a => a.adapter_import_str) := by
  intro l
  induction l with
  | nil => intro s; simp [sendLoop, matchingAdapters]
  | cons a rest ih =>
    intro s
    by_cases ha : a.notification_type.value = n.notification_type
    · obtain ⟨t, ht⟩ := sendLoop_match_calls B n c a rest s [] ha
      rw [ht]
      have : matchingAdapters (a :: rest) n = a :: matchingAdapters rest n := by
        unfold matchingAdapters
        rw [List.filter_cons_of_pos (by simpa using ha)]
      rw [this]
      simp
    · have hskip := sendLoop_skip B n c [a] (by simpa using ha) rest s []
      rw [List.singleton_append] at hskip
      rw [hskip]
      have : matchingAdapters (a :: rest) n = matchingAdapters rest n := by
        unfold matchingAdapters
        rw [List.filter_cons_of_neg (by simpa using ha)]
      rw [this]
      exact ih s

/-- With exactly one matching adapter among those configured, the loop
invokes exactly that adapter, once. -/
theorem sendLoop_calls_of_unique_match {σ : Type} (B : BackendOps σ)
    (n : Notification) (c : Ctx) :
    ∀ (l : List Adapter) (s : σ),
      (matchingAdapters l n).length = 1 →
      (sendLoop B n c l s []).calls =
        (matchingAdapters l n).map (fun a => a.adapter_import_str) := by
  intro l
  induction l with
  | nil => intro s h; simp [matchingAdapters] at h
  | cons a rest ih =>
    intro s h
    by_cases ha : a.notification_type.value = n.notification_type
    · have hcons : matchingAdapters (a :: rest) n = a :: matchingAdapters rest n := by
        unfold matchingAdapters
        rw [List.filter_cons_of_pos (by simpa using ha)]
      rw [hcons] at h ⊢
      have hnil : matchingAdapters rest n = [] := by
        simpa using List.eq_nil_of_length_eq_zero (by simpa using h)
      have hrest : ∀ x ∈ rest, x.notification_type.value ≠ n.notification_type := by
        intro x hx
        have := List.filter_eq_nil.mp hnil x hx
        simpa using this
      rw [sendLoop_match_unique B n c a rest s [] ha hrest]
      rw [hnil]
      simp
    · have hskip := sendLoop_skip B n c [a] (by simpa using ha) rest s []
      rw [List.singleton_append] at hskip
      have hsame : matchingAdapters (a :: rest) n = matchingAdapters rest n := by
        unfold matchingAdapters
        rw [List.filter_cons_of_neg (by simpa using ha)]
      rw [hskip, hsame]
      rw [hsame] at h
      exact ih s h

/-! ### Fake-backend state lemmas -/

/-- Updating the first id-match with an id-preserving function commutes with
lookup by that id. -/
theorem findNotification_updateFirstById (ns : List Notification) (nid : PId)
    (f : Notification → Notification) (hid : ∀ m, (f m).id = m.id) :
    findNotification (updateFirstById ns nid f) nid =
      (findNotification ns nid).map f := by
  induction ns with
  | nil => rfl
  | cons n rest ih =>
    by_cases h : (n.id.str == nid.str) = true
    · have hstep : updateFirstById (n :: rest) nid f = f n :: rest := by
        unfold updateFirstById; rw [if_pos h]
      rw [hstep]
      have h1 : findNotification (f n :: rest) nid = some (f n) := by
        unfold findNotification
        exact List.find?_cons_of_pos rest
          (by show ((f n).id.str == nid.str) = true; rw [hid n]; exact h)
      have h2 : findNotification (n :: rest) nid = some n := by
        unfold findNotification
        exact List.find?_cons_of_pos rest h
      rw [h1, h2]
      rfl
    · have hstep : updateFirstById (n :: rest) nid f =
          n :: updateFirstById rest nid f := by
        unfold updateFirstById; rw [if_neg h]; cases rest <;> rfl
      rw [hstep]
      have h1 : findNotification (n :: updateFirstById rest nid f) nid =
          findNotification (updateFirstById rest nid f) nid := by
        unfold findNotification
        exact List.find?_cons_of_neg _ h
      have h2 : findNotification (n :: rest) nid = findNotification rest nid := by
        unfold findNotification
        exact List.find?_cons_of_neg rest h
      rw [h1, h2]
      exact ih

/-- A successful `mark_pending_as_failed` on the fake backend. -/
theorem fakeOpsMarkFailed_ok (fs : FakeState) (nid : PId) (m : Notification)
    (h : findNotification fs.notifications nid = some m) :
    fakeOpsMarkFailed fs nid =
      .ok ⟨updateFirstById fs.notifications nid
            (fun x => { x with status := NotificationStatus.failed.value }),
          fs.nextId⟩ := by
  unfold fakeOpsMarkFailed fakeMarkPendingAsFailed fakeSetStatus
  rw [h]

/-- Model of `mark_pending_as_failed` on the fake backend leaves the stored
notification with status FAILED. -/
theorem fakeOpsMarkFailed_status (fs : FakeState) (nid : PId) (m : Notification)
    (h : findNotification fs.notifications nid = some m) :
    statusOfId ⟨updateFirstById fs.notifications nid
        (fun x => { x with status := NotificationStatus.failed.value }),
      fs.nextId⟩ nid = some NotificationStatus.failed.value := by
  unfold statusOfId
  rw [findNotification_updateFirstById fs.notifications nid
    (fun x => { x with status := NotificationStatus.failed.value }) (fun _ => rfl)]
  rw [h]
  rfl

/-! ### Service-level helper lemmas -/

/-- On context success, `send` is the adapter loop started with an empty
call list. -/
theorem send_of_ctx_ok {σ : Type} (B : BackendOps σ) (adapters : List Adapter)
    (reg : Registry) (s : σ) (n : Notification) (c : Ctx)
    (hctx : get_notification_context reg n = .ok c) :
    NotificationService.send B adapters reg s n = sendLoop B n c adapters s [] := by
  unfold NotificationService.send
  rw [hctx]

/-- On context failure, `send` is determined by the mark-failed attempt. -/
theorem send_of_ctx_error {σ : Type} (B : BackendOps σ) (adapters : List Adapter)
    (reg : Registry) (s : σ) (n : Notification) (e0 : PyExc)
    (hctx : get_notification_context reg n = .error e0) :
    NotificationService.send B adapters reg s n =
      onBackendResult (B.mark_pending_as_failed s n.id)
        (fun s1 => ⟨s1, [], Option.none⟩)
        ⟨s, [], some (.markFailedErr .updateErr)⟩
        ⟨s, [], some .notFoundErr⟩ := by
  unfold NotificationService.send
  rw [hctx]

/-! ### Claim C5 — context-generation failure -/

/-- Claim C5:  When context generation fails in `NotificationService.send`
(the context function is unregistered or raises), no adapter `send` is
invoked and `mark_pending_as_failed` is attempted: if it succeeds, `send`
returns silently with the marked state; if it fails with an update error, a
mark-failed-error chained from that update error is raised with the state
unchanged.  On the fake backend (second part), when the notification is
stored, the call returns silently and its stored status becomes FAILED. -/
theorem C5_context_failure :
    (∀ (σ : Type) (B : BackendOps σ) (adapters : List Adapter) (reg : Registry)
        (s : σ) (n : Notification) (e0 : PyExc),
      get_notification_context reg n = .error e0 →
      ((NotificationService.send B adapters reg s n).calls = []
       ∧ (∀ s1, B.mark_pending_as_failed s n.id = .ok s1 →
           NotificationService.send B adapters reg s n = ⟨s1, [], Option.none⟩)
       ∧ (B.mark_pending_as_failed s n.id = .error .updateError →
           NotificationService.send B adapters reg s n =
             ⟨s, [], some (.markFailedErr .updateErr)⟩)))
    ∧ (∀ (adapters : List Adapter) (reg : Registry) (fs : FakeState)
        (n m : Notification) (e0 : PyExc),
      get_notification_context reg n = .error e0 →
      findNotification fs.notifications n.id = some m →
      ((NotificationService.send fakeOps adapters reg fs n).calls = []
       ∧ (NotificationService.send fakeOps adapters reg fs n).outcome = Option.none
       ∧ statusOfId (NotificationService.send fakeOps adapters reg fs n).state n.id =
           some NotificationStatus.failed.value)) := by
  constructor
  · intro σ B adapters reg s n e0 hctx
    refine ⟨?_, ?_, ?_⟩
    · rw [send_of_ctx_error B adapters reg s n e0 hctx]
      rcases B.mark_pending_as_failed s n.id with e | s1
      · cases e <;> rfl
      · rfl
    · intro s1 hok
      rw [send_of_ctx_error B adapters reg s n e0 hctx, hok]
      rfl
    · intro herr
      rw [send_of_ctx_error B adapters reg s n e0 hctx, herr]
      rfl
  · intro adapters reg fs n m e0 hctx hfind
    have hok : fakeOps.mark_pending_as_failed fs n.id =
        .ok ⟨updateFirstById fs.notifications n.id
              (fun x => { x with status := NotificationStatus.failed.value }),
            fs.nextId⟩ :=
      fakeOpsMarkFailed_ok fs n.id m hfind
    have hsend : NotificationService.send fakeOps adapters reg fs n =
        ⟨⟨updateFirstById fs.notifications n.id
            (fun x => { x with status := NotificationStatus.failed.value }),
          fs.nextId⟩, [], Option.none⟩ := by
      rw [send_of_ctx_error fakeOps adapters reg fs n e0 hctx, hok]
      rfl
    rw [hsend]
    exact ⟨rfl, rfl, fakeOpsMarkFailed_status fs n.id m hfind⟩

/-- Witness for C5: a stored pending notification whose `context_name` is not
in the registry: no adapter is invoked, nothing is raised, and the stored
status becomes FAILED. -/
theorem C5_context_failure_witness :
    (NotificationService.send fakeOps [adapterA] sampleRegistry
      ⟨[mkNotif "1" "EMAIL" "nope" Option.none "PENDING_SEND"], 9⟩
      (mkNotif "1" "EMAIL" "nope" Option.none "PENDING_SEND")).calls = []
    ∧ (NotificationService.send fakeOps [adapterA] sampleRegistry
      ⟨[mkNotif "1" "EMAIL" "nope" Option.none "PENDING_SEND"], 9⟩
      (mkNotif "1" "EMAIL" "nope" Option.none "PENDING_SEND")).outcome = Option.none
    ∧ statusOfId (NotificationService.send fakeOps [adapterA] sampleRegistry
      ⟨[mkNotif "1" "EMAIL" "nope" Option.none "PENDING_SEND"], 9⟩
      (mkNotif "1" "EMAIL" "nope" Option.none "PENDING_SEND")).state
        (mkNotif "1" "EMAIL" "nope" Option.none "PENDING_SEND").id =
      some NotificationStatus.failed.value :=
  C5_context_failure.2 [adapterA] sampleRegistry
    ⟨[mkNotif "1" "EMAIL" "nope" Option.none "PENDING_SEND"], 9⟩
    (mkNotif "1" "EMAIL" "nope" Option.none "PENDING_SEND")
    (mkNotif "1" "EMAIL" "nope" Option.none "PENDING_SEND")
    PyExc.ctxGenErr rfl rfl

/-! ### Claim C6 — adapter failure protocol -/

/-- Claim C6:  When the first matching adapter's `send` raises: exactly that
adapter was invoked; the exception is wrapped as a send-error; and
`mark_pending_as_failed` is attempted — if it succeeds the send-error is
raised with the marked state, if it raises an update error a
mark-failed-error chained from the send-error replaces it; so whenever the
mark attempt does not itself raise a not-found error, the caller sees exactly
one of these two errors, with the original adapter exception recoverable
through the `sendErr`/`adapterExc` chain in either case. -/
theorem C6_adapter_failure {σ : Type} (B : BackendOps σ)
    (adapters : List Adapter) (reg : Registry) (s : σ) (n : Notification)
    (c : Ctx) (pre : List Adapter) (a : Adapter) (post : List Adapter)
    (hctx : get_notification_context reg n = .ok c)
    (hsplit : adapters = pre ++ a :: post)
    (hpre : ∀ x ∈ pre, x.notification_type.value ≠ n.notification_type)
    (ha : a.notification_type.value = n.notification_type)
    (hfail : a.sendOk = false) :
    (NotificationService.send B adapters reg s n).calls = [a.adapter_import_str]
    ∧ (∀ s1, B.mark_pending_as_failed s n.id = .ok s1 →
        NotificationService.send B adapters reg s n =
          ⟨s1, [a.adapter_import_str],
           some (.sendErr (.adapterExc a.adapter_import_str))⟩)
    ∧ (B.mark_pending_as_failed s n.id = .error .updateError →
        NotificationService.send B adapters reg s n =
          ⟨s, [a.adapter_import_str],
           some (.markFailedErr (.sendErr (.adapterExc a.adapter_import_str)))⟩)
    ∧ (B.mark_pending_as_failed s n.id ≠ .error .notFoundError →
        (NotificationService.send B adapters reg s n).outcome =
          some (.sendErr (.adapterExc a.adapter_import_str))
        ∨ (NotificationService.send B adapters reg s n).outcome =
          some (.markFailedErr (.sendErr (.adapterExc a.adapter_import_str)))) := by
  have hmain : NotificationService.send B adapters reg s n =
      onBackendResult (B.mark_pending_as_failed s n.id)
        (fun s1 =>
          ⟨s1, [a.adapter_import_str],
           some (.sendErr (.adapterExc a.adapter_import_str))⟩)
        ⟨s, [a.adapter_import_str],
         some (.markFailedErr (.sendErr (.adapterExc a.adapter_import_str)))⟩
        ⟨s, [a.adapter_import_str], some .notFoundErr⟩ := by
    rw [send_of_ctx_ok B adapters reg s n c hctx, hsplit,
        sendLoop_skip B n c pre hpre (a :: post) s [],
        sendLoop_match_head B n c a post s [] ha,
        if_neg (by simp [hfail])]
    simp only [List.nil_append]
  rw [hmain]
  refine ⟨?_, ?_, ?_, ?_⟩
  · rcases B.mark_pending_as_failed s n.id with e | s1
    · cases e <;> rfl
    · rfl
  · intro s1 hok; rw [hok]; rfl
  · intro herr; rw [herr]; rfl
  · intro hne
    rcases hm : B.mark_pending_as_failed s n.id with e | s1
    · cases e
      · right; rfl
      · exact absurd hm hne
    · left; rfl

/-- Witness for C6: a failing email adapter behind a non-matching push
adapter, with the notification stored so that marking succeeds: exactly the
failing adapter is invoked and the outcome is the wrapped send-error. -/
theorem C6_adapter_failure_witness :
    (NotificationService.send fakeOps [adapterPush, adapterFailing]
      sampleRegistry ⟨[mkNotif "1" "EMAIL" "greet" Option.none "PENDING_SEND"], 9⟩
      (mkNotif "1" "EMAIL" "greet" Option.none "PENDING_SEND")).calls = ["af"]
    ∧ ((NotificationService.send fakeOps [adapterPush, adapterFailing]
      sampleRegistry ⟨[mkNotif "1" "EMAIL" "greet" Option.none "PENDING_SEND"], 9⟩
      (mkNotif "1" "EMAIL" "greet" Option.none "PENDING_SEND")).outcome =
        some (.sendErr (.adapterExc "af"))
      ∨ (NotificationService.send fakeOps [adapterPush, adapterFailing]
      sampleRegistry ⟨[mkNotif "1" "EMAIL" "greet" Option.none "PENDING_SEND"], 9⟩
      (mkNotif "1" "EMAIL" "greet" Option.none "PENDING_SEND")).outcome =
        some (.markFailedErr (.sendErr (.adapterExc "af")))) := by
  have h := C6_adapter_failure fakeOps [adapterPush, adapterFailing]
    sampleRegistry ⟨[mkNotif "1" "EMAIL" "greet" Option.none "PENDING_SEND"], 9⟩
    (mkNotif "1" "EMAIL" "greet" Option.none "PENDING_SEND") [("name", "X")]
    [adapterPush] adapterFailing [] rfl rfl (by decide) rfl rfl
  exact ⟨h.1, h.2.2.2 (fun hcon => Except.noConfusion hcon)⟩

/-! ### Claim C9 — deferred dispatch returns without marking -/

/-- Claim C9:  When the first matching adapter is deferred-capable
(`AsyncBaseNotificationAdapter`) and its `send` succeeds, the synchronous
`send` returns immediately after that single invocation: the backend state is
returned untouched (no `mark_pending_as_sent`, no `store_context_used`), so
the record's status and `context_used` are unchanged by the call. -/
theorem C9_deferred_no_marking {σ : Type} (B : BackendOps σ)
    (adapters : List Adapter) (reg : Registry) (s : σ) (n : Notification)
    (c : Ctx) (pre : List Adapter) (d : Adapter) (post : List Adapter)
    (hctx : get_notification_context reg n = .ok c)
    (hsplit : adapters = pre ++ d :: post)
    (hpre : ∀ x ∈ pre, x.notification_type.value ≠ n.notification_type)
    (hd : d.notification_type.value = n.notification_type)
    (hdef : d.isAsyncBase = true) (hok : d.sendOk = true) :
    NotificationService.send B adapters reg s n =
      ⟨s, [d.adapter_import_str], Option.none⟩ := by
  rw [send_of_ctx_ok B adapters reg s n c hctx, hsplit,
      sendLoop_skip B n c pre hpre (d :: post) s [],
      sendLoop_match_head B n c d post s [] hd, if_pos hok, if_pos hdef]
  simp only [List.nil_append]

/-- Witness for C9: the deferred adapter ahead of an ordinary one; the
backend state (even an empty store) comes back untouched, with exactly one
invocation and no exception. -/
theorem C9_deferred_no_marking_witness :
    NotificationService.send fakeOps [adapterDeferred, adapterA] sampleRegistry
      ⟨[], 0⟩ (mkNotif "1" "EMAIL" "greet" Option.none "PENDING_SEND") =
      ⟨⟨[], 0⟩, ["ad"], Option.none⟩ :=
  C9_deferred_no_marking fakeOps [adapterDeferred, adapterA] sampleRegistry
    ⟨[], 0⟩ (mkNotif "1" "EMAIL" "greet" Option.none "PENDING_SEND")
    [("name", "X")] [] adapterDeferred [adapterA] rfl rfl (by simp) rfl rfl rfl

/-! ### Claim C1 — adapter selection -/

/-- Claim C1, counterexample:  The claim says exactly one adapter — the first
matching one — is invoked, however many configured adapters match.  With two
ordinary email adapters configured and a due email notification,
`create_notification` invokes *both* adapters (the source loop has no
`break`: after a successful non-deferred send and marking, iteration
continues with the next matching adapter). -/
theorem C1_counterexample :
    (NotificationService.create_notification fakeOps [adapterA, adapterB]
      sampleRegistry 0 ⟨[], 0⟩
      (mkNotif "x" "EMAIL" "greet" Option.none "PENDING_SEND")).calls =
      ["a1", "a2"] := by
  rfl

/-- Claim C1, amended:  On context success, the first adapter invoked is the
first matching one in configured order; when exactly one configured adapter
matches the notification's type, exactly that one adapter is invoked (and
`create_notification` of a due notification then results in exactly that one
adapter invocation).  When several non-deferred adapters match, each of them
is invoked in order (`C1_counterexample`), so uniqueness of the match — or a
deferred first match, `C9_deferred_no_marking` — is what bounds the
invocation count to one. -/
theorem C1_amended {σ : Type} (B : BackendOps σ) (adapters : List Adapter)
    (reg : Registry) (s : σ) (n : Notification) (c : Ctx)
    (hctx : get_notification_context reg n = .ok c) :
    ((NotificationService.send B adapters reg s n).calls).head? =
      ((matchingAdapters adapters n).head?).map (fun a => a.adapter_import_str)
    ∧ ((matchingAdapters adapters n).length = 1 →
      (NotificationService.send B adapters reg s n).calls =
        (matchingAdapters adapters n).map (fun a => a.adapter_import_str))
    ∧ (∀ (now : Int) (args : Notification) (s1 : σ) (n1 : Notification) (c1 : Ctx),
      B.persist_notification s args = (s1, n1) →
      dueNow n1.send_after now = true →
      get_notification_context reg n1 = .ok c1 →
      (matchingAdapters adapters n1).length = 1 →
      (NotificationService.create_notification B adapters reg now s args).calls =
        (matchingAdapters adapters n1).map (fun a => a.adapter_import_str)) := by
  refine ⟨?_, ?_, ?_⟩
  · rw [send_of_ctx_ok B adapters reg s n c hctx]
    exact sendLoop_calls_head B n c adapters s
  · intro hlen
    rw [send_of_ctx_ok B adapters reg s n c hctx]
    exact sendLoop_calls_of_unique_match B n c adapters s hlen
  · intro now args s1 n1 c1 hpersist hdue hctx1 hlen
    unfold NotificationService.create_notification
    rw [hpersist]
    simp only
    rw [if_pos hdue]
    simp only
    rw [send_of_ctx_ok B adapters reg s1 n1 c1 hctx1]
    exact sendLoop_calls_of_unique_match B n1 c1 adapters s1 hlen

/-- Witness for C1's amended theorem: behind a non-matching push adapter,
the unique matching email adapter is invoked exactly once by a due
creation. -/
theorem C1_amended_witness :
    (NotificationService.create_notification fakeOps [adapterPush, adapterA]
      sampleRegistry 0 ⟨[], 0⟩
      (mkNotif "x" "EMAIL" "greet" Option.none "PENDING_SEND")).calls = ["a1"] := by
  have h := (C1_amended fakeOps [adapterPush, adapterA] sampleRegistry
    (⟨[], 0⟩ : FakeState)
    (mkNotif "x" "EMAIL" "greet" Option.none "PENDING_SEND") [("name", "X")]
    rfl).2.2 0 (mkNotif "x" "EMAIL" "greet" Option.none "PENDING_SEND")
    (fakePersistNotification ⟨[], 0⟩
      (mkNotif "x" "EMAIL" "greet" Option.none "PENDING_SEND")).1
    (fakePersistNotification ⟨[], 0⟩
      (mkNotif "x" "EMAIL" "greet" Option.none "PENDING_SEND")).2
    [("name", "X")] rfl rfl rfl (by decide)
  exact h

/-! ### Identifier preservation by the fake backend operations -/

theorem fakeOps_mark_sent_eq :
    fakeOps.mark_pending_as_sent = fakeOpsMarkSent := rfl

theorem fakeOps_mark_failed_eq :
    fakeOps.mark_pending_as_failed = fakeOpsMarkFailed := rfl

theorem fakeOps_store_eq :
    fakeOps.store_context_used = fakeOpsStoreContext := rfl

theorem fakeOps_persist_eq :
    fakeOps.persist_notification = fakePersistNotification := rfl

/-- Updating the first id-match with an id-preserving function preserves the
stored id sequence. -/
theorem updateFirstById_ids (ns : List Notification) (nid : PId)
    (f : Notification → Notification) (hid : ∀ m, (f m).id = m.id) :
    (updateFirstById ns nid f).map (fun n => n.id.str) =
      ns.map (fun n => n.id.str) := by
  induction ns with
  | nil => rfl
  | cons n rest ih =>
    by_cases h : (n.id.str == nid.str) = true
    · have hstep : updateFirstById (n :: rest) nid f = f n :: rest := by
        unfold updateFirstById; rw [if_pos h]
      rw [hstep]
      simp [hid n]
    · have hstep : updateFirstById (n :: rest) nid f =
          n :: updateFirstById rest nid f := by
        unfold updateFirstById; rw [if_neg h]; cases rest <;> rfl
      rw [hstep]
      simp [ih]

/-- An id present among the stored id strings is findable. -/
theorem findNotification_of_ids (ns : List Notification) (nid : PId)
    (h : nid.str ∈ ns.map (fun n => n.id.str)) :
    ∃ m, findNotification ns nid = some m := by
  unfold findNotification
  rcases List.mem_map.mp h with ⟨m, hm, hstr⟩
  cases hfind : ns.find? (fun n => n.id.str == nid.str) with
  | none =>
    rw [List.find?_eq_none] at hfind
    exact absurd (by simpa using hstr) (by simpa using hfind m hm)
  | some x => exact ⟨x, rfl⟩

theorem fakeOpsMarkSent_of_found (fs : FakeState) (nid : PId) (m : Notification)
    (h : findNotification fs.notifications nid = some m) :
    fakeOpsMarkSent fs nid =
      .ok ⟨updateFirstById fs.notifications nid
            (fun x => { x with status := NotificationStatus.sent.value }),
          fs.nextId⟩ := by
  unfold fakeOpsMarkSent fakeMarkPendingAsSent fakeSetStatus
  rw [h]

theorem fakeOpsStoreContext_of_found (fs : FakeState) (nid : PId) (c : Ctx)
    (a : String) (m : Notification)
    (h : findNotification fs.notifications nid = some m) :
    fakeOpsStoreContext fs nid c a =
      .ok ⟨updateFirstById fs.notifications nid
            (fun x => { x with context_used := some c, adapter_used := some a }),
          fs.nextId⟩ := by
  unfold fakeOpsStoreContext fakeStoreContextUsed
  rw [h]

/-- The three fake mutation operations preserve the stored id sequence. -/
theorem fakeOps_mutations_ids (fs fs' : FakeState) (nid : PId) :
    (fakeOpsMarkSent fs nid = .ok fs' → idsOf fs' = idsOf fs)
    ∧ (fakeOpsMarkFailed fs nid = .ok fs' → idsOf fs' = idsOf fs)
    ∧ (∀ (c : Ctx) (a : String),
        fakeOpsStoreContext fs nid c a = .ok fs' → idsOf fs' = idsOf fs) := by
  refine ⟨?_, ?_, ?_⟩
  · intro h
    unfold fakeOpsMarkSent fakeMarkPendingAsSent fakeSetStatus at h
    rcases hf : findNotification fs.notifications nid with _ | m <;> rw [hf] at h
    · exact absurd h (by simp)
    · have : fs' = ⟨updateFirstById fs.notifications nid
          (fun x => { x with status := NotificationStatus.sent.value }),
          fs.nextId⟩ := by
        cases h.symm
        rfl
      rw [this]
      exact updateFirstById_ids fs.notifications nid _ (fun _ => rfl)
  · intro h
    unfold fakeOpsMarkFailed fakeMarkPendingAsFailed fakeSetStatus at h
    rcases hf : findNotification fs.notifications nid with _ | m <;> rw [hf] at h
    · exact absurd h (by simp)
    · have : fs' = ⟨updateFirstById fs.notifications nid
          (fun x => { x with status := NotificationStatus.failed.value }),
          fs.nextId⟩ := by
        cases h.symm
        rfl
      rw [this]
      exact updateFirstById_ids fs.notifications nid _ (fun _ => rfl)
  · intro c a h
    unfold fakeOpsStoreContext fakeStoreContextUsed at h
    rcases hf : findNotification fs.notifications nid with _ | m <;> rw [hf] at h
    · exact absurd h (by simp)
    · have : fs' = ⟨updateFirstById fs.notifications nid
          (fun x => { x with context_used := some c, adapter_used := some a }),
          fs.nextId⟩ := by
        cases h.symm
        rfl
      rw [this]
      exact updateFirstById_ids fs.notifications nid _ (fun _ => rfl)

/-- Invariant of the adapter loop on the fake backend, for a notification
whose id is stored: the stored id sequence is preserved and the only
exceptions that can come out are wrapped adapter send-errors (never a
not-found, mark-failed or mark-sent error, since the fake mark operations
succeed whenever the id is stored and never raise update errors). -/
theorem sendLoop_fake_inv (n : Notification) (c : Ctx) :
    ∀ (l : List Adapter) (s : FakeState) (calls : List String),
      n.id.str ∈ idsOf s →
      (idsOf (sendLoop fakeOps n c l s calls).state = idsOf s
       ∧ ((sendLoop fakeOps n c l s calls).outcome = Option.none
          ∨ ∃ astr, (sendLoop fakeOps n c l s calls).outcome =
              some (.sendErr (.adapterExc astr)))) := by
  intro l
  induction l with
  | nil =>
    intro s calls h
    exact ⟨rfl, Or.inl rfl⟩
  | cons a rest ih =>
    intro s calls h
    by_cases hm : a.notification_type.value = n.notification_type
    · rw [sendLoop_match_head fakeOps n c a rest s calls hm]
      by_cases hok : a.sendOk = true
      · rw [if_pos hok]
        by_cases hd : a.isAsyncBase = true
        · rw [if_pos hd]
          exact ⟨rfl, Or.inl rfl⟩
        · rw [if_neg hd]
          obtain ⟨m1, hf1⟩ := findNotification_of_ids s.notifications n.id h
          rw [fakeOps_mark_sent_eq]
          rcases hs1 : fakeOpsMarkSent s n.id with e1 | s1
          · rw [fakeOpsMarkSent_of_found s n.id m1 hf1] at hs1
            exact absurd hs1 (by simp)
          · simp only [onBackendResult_ok]
            have hids1 : idsOf s1 = idsOf s :=
              (fakeOps_mutations_ids s s1 n.id).1 hs1
            have h1 : n.id.str ∈ idsOf s1 := by rw [hids1]; exact h
            obtain ⟨m2, hf2⟩ := findNotification_of_ids s1.notifications n.id h1
            rw [fakeOps_store_eq]
            rcases hs2 : fakeOpsStoreContext s1 n.id c a.adapter_import_str with e2 | s2
            · rw [fakeOpsStoreContext_of_found s1 n.id c a.adapter_import_str m2 hf2] at hs2
              exact absurd hs2 (by simp)
            · simp only [onBackendResult_ok]
              have hids2 : idsOf s2 = idsOf s1 :=
                (fakeOps_mutations_ids s1 s2 n.id).2.2 c a.adapter_import_str hs2
              have h2 : n.id.str ∈ idsOf s2 := by rw [hids2]; exact h1
              obtain ⟨hidsr, houtr⟩ := ih s2 (calls ++ [a.adapter_import_str]) h2
              refine ⟨?_, houtr⟩
              rw [hidsr, hids2, hids1]
      · rw [if_neg hok]
        obtain ⟨m1, hf1⟩ := findNotification_of_ids s.notifications n.id h
        rw [fakeOps_mark_failed_eq]
        rcases hs1 : fakeOpsMarkFailed s n.id with e1 | s1
        · rw [fakeOpsMarkFailed_ok s n.id m1 hf1] at hs1
          exact absurd hs1 (by simp)
        · simp only [onBackendResult_ok]
          refine ⟨(fakeOps_mutations_ids s s1 n.id).2.1 hs1, ?_⟩
          exact Or.inr ⟨a.adapter_import_str, rfl⟩
    · have hskip := sendLoop_skip fakeOps n c [a] (by simpa using hm) rest s calls
      rw [List.singleton_append] at hskip
      rw [hskip]
      exact ih s calls h

/-- Invariant of `send` on the fake backend for a stored notification. -/
theorem send_fake_inv (adapters : List Adapter) (reg : Registry)
    (s : FakeState) (n : Notification) (h : n.id.str ∈ idsOf s) :
    idsOf (NotificationService.send fakeOps adapters reg s n).state = idsOf s
    ∧ ((NotificationService.send fakeOps adapters reg s n).outcome = Option.none
       ∨ ∃ astr, (NotificationService.send fakeOps adapters reg s n).outcome =
           some (.sendErr (.adapterExc astr))) := by
  cases hctx : get_notification_context reg n with
  | ok c =>
    rw [send_of_ctx_ok fakeOps adapters reg s n c hctx]
    exact sendLoop_fake_inv n c adapters s [] h
  | error e =>
    rw [send_of_ctx_error fakeOps adapters reg s n e hctx]
    obtain ⟨m1, hf1⟩ := findNotification_of_ids s.notifications n.id h
    rw [fakeOps_mark_failed_eq]
    rcases hs1 : fakeOpsMarkFailed s n.id with e1 | s1
    · rw [fakeOpsMarkFailed_ok s n.id m1 hf1] at hs1
      exact absurd hs1 (by simp)
    · simp only [onBackendResult_ok]
      exact ⟨(fakeOps_mutations_ids s s1 n.id).2.1 hs1, Or.inl (by trivial)⟩

/-! ### The tally classification of per-notification outcomes -/

/-- Outcomes tallied as sent by `send_pending_notifications`: a normal return
or a mark-sent-error. -/
def sentLike : Option PyExc → Bool
  | Option.none => true
  | some (.markSentErr _) => true
  | _ => false

/-- Outcomes tallied as failed: a send-error or a mark-failed-error. -/
def failLike : Option PyExc → Bool
  | some (.sendErr _) => true
  | some (.markFailedErr _) => true
  | _ => false

theorem sentLike_failLike_exclusive (o : Option PyExc) :
    sentLike o = true → failLike o = false := by
  cases o with
  | none => intro _; rfl
  | some e => cases e <;> simp [sentLike, failLike]

theorem classify_of_sentLike {σ : Type} (r : SendResult σ)
    (a b c : PendingRunResult σ) (h : sentLike r.outcome = true) :
    classifySendOutcome r a b c = a := by
  unfold classifySendOutcome
  rcases ho : r.outcome with _ | e
  · rfl
  · rw [ho] at h
    cases e <;> simp [sentLike] at h <;> rfl

theorem classify_of_failLike {σ : Type} (r : SendResult σ)
    (a b c : PendingRunResult σ) (h : failLike r.outcome = true) :
    classifySendOutcome r a b c = b := by
  unfold classifySendOutcome
  rcases ho : r.outcome with _ | e
  · rw [ho] at h
    simp [failLike] at h
  · rw [ho] at h
    cases e <;> simp [failLike] at h <;> rfl

/-- Specification of the pending-send loop on the fake backend: when every
pending notification's id is stored, the loop attempts all of them (one
recorded outcome each), nothing escapes, each outcome is tallied as sent or
as failed according to its exception class, and the stored id sequence is
preserved. -/
theorem sendPendingLoop_fake_spec (adapters : List Adapter) (reg : Registry) :
    ∀ (pending : List Notification) (s : FakeState) (sent failed : Nat)
      (calls : List String) (outs : List (Option PyExc)),
      (∀ n ∈ pending, n.id.str ∈ idsOf s) →
      ∃ newOuts,
        sendPendingLoop fakeOps adapters reg pending s sent failed calls outs =
          sendPendingLoop fakeOps adapters reg pending s sent failed calls outs
        ∧ (sendPendingLoop fakeOps adapters reg pending s sent failed calls outs).escaped
            = Option.none
        ∧ (sendPendingLoop fakeOps adapters reg pending s sent failed calls outs).outcomes
            = outs ++ newOuts
        ∧ newOuts.length = pending.length
        ∧ (sendPendingLoop fakeOps adapters reg pending s sent failed calls outs).sent
            = sent + newOuts.countP sentLike
        ∧ (sendPendingLoop fakeOps adapters reg pending s sent failed calls outs).failed
            = failed + newOuts.countP failLike
        ∧ (∀ o ∈ newOuts, sentLike o = true ∨ failLike o = true)
        ∧ idsOf (sendPendingLoop fakeOps adapters reg pending s sent failed calls outs).state
            = idsOf s := by
  intro pending
  induction pending with
  | nil =>
    intro s sent failed calls outs hids
    exact ⟨[], rfl, rfl, by simp [sendPendingLoop], rfl,
      by simp [sendPendingLoop, List.countP_nil],
      by simp [sendPendingLoop, List.countP_nil],
      by simp, rfl⟩
  | cons n rest ih =>
    intro s sent failed calls outs hids
    have hmem : n.id.str ∈ idsOf s := hids n (by simp)
    obtain ⟨hidspres, hout⟩ := send_fake_inv adapters reg s n hmem
    have hrest : ∀ m ∈ rest, m.id.str ∈ idsOf
        (NotificationService.send fakeOps adapters reg s n).state := by
      intro m hm
      rw [hidspres]
      exact hids m (by simp [hm])
    have hstep : sendPendingLoop fakeOps adapters reg (n :: rest) s sent failed calls outs =
        classifySendOutcome (NotificationService.send fakeOps adapters reg s n)
          (sendPendingLoop fakeOps adapters reg rest
            (NotificationService.send fakeOps adapters reg s n).state (sent + 1) failed
            (calls ++ (NotificationService.send fakeOps adapters reg s n).calls)
            (outs ++ [(NotificationService.send fakeOps adapters reg s n).outcome]))
          (sendPendingLoop fakeOps adapters reg rest
            (NotificationService.send fakeOps adapters reg s n).state sent (failed + 1)
            (calls ++ (NotificationService.send fakeOps adapters reg s n).calls)
            (outs ++ [(NotificationService.send fakeOps adapters reg s n).outcome]))
          ⟨(NotificationService.send fakeOps adapters reg s n).state, sent, failed,
           calls ++ (NotificationService.send fakeOps adapters reg s n).calls,
           outs ++ [(NotificationService.send fakeOps adapters reg s n).outcome],
           (NotificationService.send fakeOps adapters reg s n).outcome⟩ := by
      unfold sendPendingLoop
      cases rest <;> rfl
    rcases hout with hnone | ⟨astr, herr⟩
    · have hsl : sentLike (NotificationService.send fakeOps adapters reg s n).outcome = true := by
        rw [hnone]; rfl
      rw [hstep, classify_of_sentLike _ _ _ _ hsl]
      obtain ⟨newOuts', _, hesc, houts, hlen, hsent, hfailed, hclass, hidsr⟩ :=
        ih ((NotificationService.send fakeOps adapters reg s n).state) (sent + 1) failed
          (calls ++ (NotificationService.send fakeOps adapters reg s n).calls)
          (outs ++ [(NotificationService.send fakeOps adapters reg s n).outcome]) hrest
      refine ⟨(NotificationService.send fakeOps adapters reg s n).outcome :: newOuts',
        rfl, hesc, ?_, ?_, ?_, ?_, ?_, ?_⟩
      · rw [houts]; simp
      · simp [hlen]
      · rw [hsent, hnone]
        rw [List.countP_cons]
        simp [sentLike]
        omega
      · rw [hfailed, hnone]
        rw [List.countP_cons]
        simp [failLike]
      · intro o hmo
        rcases List.mem_cons.mp hmo with hh | ht
        · subst hh; rw [hnone]; left; rfl
        · exact hclass o ht
      · rw [hidsr, hidspres]
    · have hfl : failLike (NotificationService.send fakeOps adapters reg s n).outcome = true := by
        rw [herr]; rfl
      rw [hstep, classify_of_failLike _ _ _ _ hfl]
      obtain ⟨newOuts', _, hesc, houts, hlen, hsent, hfailed, hclass, hidsr⟩ :=
        ih ((NotificationService.send fakeOps adapters reg s n).state) sent (failed + 1)
          (calls ++ (NotificationService.send fakeOps adapters reg s n).calls)
          (outs ++ [(NotificationService.send fakeOps adapters reg s n).outcome]) hrest
      refine ⟨(NotificationService.send fakeOps adapters reg s n).outcome :: newOuts',
        rfl, hesc, ?_, ?_, ?_, ?_, ?_, ?_⟩
      · rw [houts]; simp
      · simp [hlen]
      · rw [hsent, herr]
        rw [List.countP_cons]
        simp [sentLike]
      · rw [hfailed, herr]
        rw [List.countP_cons]
        simp [failLike]
        omega
      · intro o hmo
        rcases List.mem_cons.mp hmo with hh | ht
        · subst hh; rw [herr]; right; rfl
        · exact hclass o ht
      · rw [hidsr, hidspres]

theorem failLike_sentLike_exclusive (o : Option PyExc) :
    failLike o = true → sentLike o = false := by
  cases o with
  | none => intro hcon; simp [failLike] at hcon
  | some e => cases e <;> simp [sentLike, failLike]

/-- A list of outcomes each tallied exactly once splits the length between
the two tallies. -/
theorem countP_sentLike_failLike (l : List (Option PyExc))
    (h : ∀ o ∈ l, sentLike o = true ∨ failLike o = true) :
    l.countP sentLike + l.countP failLike = l.length := by
  induction l with
  | nil => simp
  | cons a t ih =>
    have ha := h a (by simp)
    have ht : ∀ o ∈ t, sentLike o = true ∨ failLike o = true :=
      fun o ho => h o (by simp [ho])
    have hih := ih ht
    rw [List.countP_cons, List.countP_cons]
    rcases ha with hs | hf
    · have hff : failLike a = false := sentLike_failLike_exclusive a hs
      rw [hs, hff]
      simp
      omega
    · have hsf : sentLike a = false := failLike_sentLike_exclusive a hf
      rw [hf, hsf]
      simp
      omega

/-! ### Claim C2 — batch-send counters -/

/-- Claim C2, counterexample:  The claim says that over `N` pending
notifications of which `K` fail to send, the counters end at
`sent = N - K`, `failed = K`.  Take one pending notification whose
`context_name` is not registered: its send fails (zero adapter invocations,
stored status becomes FAILED — it was certainly not sent), yet because the
context-failure branch of `send` returns silently after marking, the loop's
`else` clause logs it as sent: the counters end at `sent = 1`, `failed = 0`
where the claim demands `sent = 0`, `failed = 1`. -/
theorem C2_counterexample :
    (fakeGetAllPending [mkNotif "1" "EMAIL" "nope" Option.none "PENDING_SEND"] 0).length = 1
    ∧ (NotificationService.send_pending_notifications fakeOps [adapterA]
        sampleRegistry 0
        ⟨[mkNotif "1" "EMAIL" "nope" Option.none "PENDING_SEND"], 5⟩).calls = []
    ∧ statusOfId (NotificationService.send_pending_notifications fakeOps [adapterA]
        sampleRegistry 0
        ⟨[mkNotif "1" "EMAIL" "nope" Option.none "PENDING_SEND"], 5⟩).state
        (PId.pStr "1") = some "FAILED"
    ∧ (NotificationService.send_pending_notifications fakeOps [adapterA]
        sampleRegistry 0
        ⟨[mkNotif "1" "EMAIL" "nope" Option.none "PENDING_SEND"], 5⟩).sent = 1
    ∧ (NotificationService.send_pending_notifications fakeOps [adapterA]
        sampleRegistry 0
        ⟨[mkNotif "1" "EMAIL" "nope" Option.none "PENDING_SEND"], 5⟩).failed = 0 := by
  exact ⟨rfl, rfl, rfl, rfl, rfl⟩

/-- Claim C2, amended:  `send_pending_notifications` on the fake backend
attempts a send for every one of the `N` pending notifications and lets no
exception escape; the counters classify each attempt by the exception it
raised rather than by delivery: an attempt is counted sent when `send`
returned normally (which includes context-generation failures recorded as
FAILED) or raised a mark-sent-error, and counted failed when it raised a
send-error or a mark-failed-error; the two counters always sum to `N`.  In
particular, when the `K` failures are adapter send-errors and every context
generates, `failed = K` and `sent = N - K`. -/
theorem C2_amended (adapters : List Adapter) (reg : Registry) (now : Int)
    (fs : FakeState) :
    (NotificationService.send_pending_notifications fakeOps adapters reg now fs).escaped
      = Option.none
    ∧ (NotificationService.send_pending_notifications fakeOps adapters reg now fs).outcomes.length
      = (fakeGetAllPending fs.notifications now).length
    ∧ (NotificationService.send_pending_notifications fakeOps adapters reg now fs).sent
      = (NotificationService.send_pending_notifications fakeOps adapters reg now fs).outcomes.countP sentLike
    ∧ (NotificationService.send_pending_notifications fakeOps adapters reg now fs).failed
      = (NotificationService.send_pending_notifications fakeOps adapters reg now fs).outcomes.countP failLike
    ∧ (NotificationService.send_pending_notifications fakeOps adapters reg now fs).sent
        + (NotificationService.send_pending_notifications fakeOps adapters reg now fs).failed
      = (fakeGetAllPending fs.notifications now).length
    ∧ (∀ o ∈ (NotificationService.send_pending_notifications fakeOps adapters reg now fs).outcomes,
        sentLike o = true ∨ failLike o = true) := by
  have hsub : ∀ n ∈ fakeGetAllPending fs.notifications now, n.id.str ∈ idsOf fs := by
    intro n hn
    unfold fakeGetAllPending at hn
    exact List.mem_map_of_mem _ (List.mem_filter.mp hn).1
  obtain ⟨newOuts, _, hesc, houts, hlen, hsent, hfailed, hclass, _⟩ :=
    sendPendingLoop_fake_spec adapters reg (fakeGetAllPending fs.notifications now)
      fs 0 0 [] [] hsub
  have hrun : NotificationService.send_pending_notifications fakeOps adapters reg now fs =
      sendPendingLoop fakeOps adapters reg (fakeGetAllPending fs.notifications now)
        fs 0 0 [] [] := rfl
  rw [hrun, houts]
  simp only [List.nil_append]
  refine ⟨hesc, hlen, ?_, ?_, ?_, hclass⟩
  · rw [hsent]; omega
  · rw [hfailed]; omega
  · rw [hsent, hfailed]
    have := countP_sentLike_failLike newOuts hclass
    omega

/-- Witness for C2's amended theorem: one pending notification and a failing
adapter: nothing escapes and the counters sum to the pending count 1 (here
`failed = 1`, checked by evaluation). -/
theorem C2_amended_witness :
    (NotificationService.send_pending_notifications fakeOps [adapterFailing]
      sampleRegistry 0
      ⟨[mkNotif "1" "EMAIL" "greet" Option.none "PENDING_SEND"], 5⟩).escaped
      = Option.none
    ∧ (NotificationService.send_pending_notifications fakeOps [adapterFailing]
        sampleRegistry 0
        ⟨[mkNotif "1" "EMAIL" "greet" Option.none "PENDING_SEND"], 5⟩).sent
        + (NotificationService.send_pending_notifications fakeOps [adapterFailing]
        sampleRegistry 0
        ⟨[mkNotif "1" "EMAIL" "greet" Option.none "PENDING_SEND"], 5⟩).failed = 1
    ∧ (NotificationService.send_pending_notifications fakeOps [adapterFailing]
        sampleRegistry 0
        ⟨[mkNotif "1" "EMAIL" "greet" Option.none "PENDING_SEND"], 5⟩).failed = 1 := by
  have h := C2_amended [adapterFailing] sampleRegistry 0
    ⟨[mkNotif "1" "EMAIL" "greet" Option.none "PENDING_SEND"], 5⟩
  exact ⟨h.1, h.2.2.2.2.1.trans (by rfl), rfl⟩

/-! ### Claim C7 — create persists first, then maybe sends -/

/-- Model of `create_notification` when the persisted record is due: persist first,
then a single `send` of the persisted record, whose outcome the call
reports; the record is returned only when `send` raised nothing. -/
theorem create_of_due {σ : Type} (B : BackendOps σ) (adapters : List Adapter)
    (reg : Registry) (now : Int) (s : σ) (args : Notification) (s1 : σ)
    (n1 : Notification) (hp : B.persist_notification s args = (s1, n1))
    (hdue : dueNow n1.send_after now = true) :
    NotificationService.create_notification B adapters reg now s args =
      ⟨(NotificationService.send B adapters reg s1 n1).state,
       (NotificationService.send B adapters reg s1 n1).calls,
       (NotificationService.send B adapters reg s1 n1).outcome,
       if (NotificationService.send B adapters reg s1 n1).outcome = Option.none
       then some n1 else Option.none⟩ := by
  unfold NotificationService.create_notification
  rw [hp]
  simp only
  rw [if_pos hdue]

/-- Model of `create_notification` when the persisted record is not yet due: persist
only, no adapter touched, record returned with its pending state. -/
theorem create_of_not_due {σ : Type} (B : BackendOps σ) (adapters : List Adapter)
    (reg : Registry) (now : Int) (s : σ) (args : Notification) (s1 : σ)
    (n1 : Notification) (hp : B.persist_notification s args = (s1, n1))
    (hdue : dueNow n1.send_after now = false) :
    NotificationService.create_notification B adapters reg now s args =
      ⟨s1, [], Option.none, some n1⟩ := by
  unfold NotificationService.create_notification
  rw [hp]
  simp only
  rw [if_neg (by simp [hdue])]

/-- Claim C7, counterexample:  The claim says the persisted record is returned
even when the immediate send fails.  With a due notification and a failing
matching adapter, `create_notification` raises the wrapped send-error and
returns nothing — although the record is durably persisted (its id is in the
store). -/
theorem C7_counterexample :
    (NotificationService.create_notification fakeOps [adapterFailing]
      sampleRegistry 0 ⟨[], 0⟩
      (mkNotif "x" "EMAIL" "greet" Option.none "PENDING_SEND")).returned = Option.none
    ∧ (NotificationService.create_notification fakeOps [adapterFailing]
        sampleRegistry 0 ⟨[], 0⟩
        (mkNotif "x" "EMAIL" "greet" Option.none "PENDING_SEND")).outcome =
      some (.sendErr (.adapterExc "af"))
    ∧ idsOf (NotificationService.create_notification fakeOps [adapterFailing]
        sampleRegistry 0 ⟨[], 0⟩
        (mkNotif "x" "EMAIL" "greet" Option.none "PENDING_SEND")).state = ["0"] := by
  exact ⟨rfl, rfl, rfl⟩

/-- Claim C7, amended:  `create_notification` persists first: the record is
created with status PENDING_SEND and appended to the store.  When its
`send_after` is null or ≤ now, `send` is invoked exactly once on the
persisted record and its outcome is the call's outcome; the record is
returned exactly when that send raised nothing — when the send raises, the
exception propagates instead of a return, but the record remains durably
persisted either way.  When `send_after` is in the future, no adapter is
invoked, nothing is raised, and the record is returned still PENDING_SEND. -/
theorem C7_amended (adapters : List Adapter) (reg : Registry) (now : Int)
    (fs : FakeState) (args : Notification) :
    (fakePersistNotification fs args).2.status = NotificationStatus.pendingSend.value
    ∧ (fakePersistNotification fs args).2 ∈ (fakePersistNotification fs args).1.notifications
    ∧ (dueNow (fakePersistNotification fs args).2.send_after now = false →
        NotificationService.create_notification fakeOps adapters reg now fs args =
          ⟨(fakePersistNotification fs args).1, [], Option.none,
           some (fakePersistNotification fs args).2⟩)
    ∧ (dueNow (fakePersistNotification fs args).2.send_after now = true →
        NotificationService.create_notification fakeOps adapters reg now fs args =
          ⟨(NotificationService.send fakeOps adapters reg
              (fakePersistNotification fs args).1 (fakePersistNotification fs args).2).state,
           (NotificationService.send fakeOps adapters reg
              (fakePersistNotification fs args).1 (fakePersistNotification fs args).2).calls,
           (NotificationService.send fakeOps adapters reg
              (fakePersistNotification fs args).1 (fakePersistNotification fs args).2).outcome,
           if (NotificationService.send fakeOps adapters reg
              (fakePersistNotification fs args).1 (fakePersistNotification fs args).2).outcome
              = Option.none
           then some (fakePersistNotification fs args).2 else Option.none⟩)
    ∧ (fakePersistNotification fs args).2.id.str ∈
        idsOf (NotificationService.create_notification fakeOps adapters reg now fs args).state := by
  have hmem : (fakePersistNotification fs args).2.id.str ∈
      idsOf (fakePersistNotification fs args).1 := by
    simp [idsOf, fakePersistNotification]
  refine ⟨rfl, by simp [fakePersistNotification], ?_, ?_, ?_⟩
  · intro hdue
    exact create_of_not_due fakeOps adapters reg now fs args _ _ rfl hdue
  · intro hdue
    exact create_of_due fakeOps adapters reg now fs args _ _ rfl hdue
  · by_cases hdue : dueNow (fakePersistNotification fs args).2.send_after now = true
    · rw [create_of_due fakeOps adapters reg now fs args _ _ rfl hdue]
      show (fakePersistNotification fs args).2.id.str ∈
        idsOf (NotificationService.send fakeOps adapters reg
          (fakePersistNotification fs args).1 (fakePersistNotification fs args).2).state
      rw [(send_fake_inv adapters reg _ _ hmem).1]
      exact hmem
    · rw [create_of_not_due fakeOps adapters reg now fs args _ _ rfl
        (Bool.not_eq_true _ ▸ hdue : dueNow (fakePersistNotification fs args).2.send_after now = false)]
      exact hmem

/-- Witness for C7's amended theorem: a record created with a future
`send_after` is persisted PENDING_SEND, no adapter runs, and the record is
returned. -/
theorem C7_amended_witness :
    (NotificationService.create_notification fakeOps [adapterA] sampleRegistry 0
      ⟨[], 0⟩ (mkNotif "x" "EMAIL" "greet" (some 100) "PENDING_SEND")).calls = []
    ∧ (NotificationService.create_notification fakeOps [adapterA] sampleRegistry 0
        ⟨[], 0⟩ (mkNotif "x" "EMAIL" "greet" (some 100) "PENDING_SEND")).returned =
      some (fakePersistNotification ⟨[], 0⟩
        (mkNotif "x" "EMAIL" "greet" (some 100) "PENDING_SEND")).2 := by
  have h := (C7_amended [adapterA] sampleRegistry 0 ⟨[], 0⟩
    (mkNotif "x" "EMAIL" "greet" (some 100) "PENDING_SEND")).2.2.1 (by rfl)
  exact ⟨by rw [h], by rw [h]⟩

end VintaSend
